import Mathlib

/-!
Verification development for the `dq` data-quality repository.

The Python modules `ndmo_standards.py`, `smart_schema_analyzer.py`,
`schema_problem_analyzer.py` and `smart_data_processor.py` are shallowly
embedded below: pandas cell values become the `PyVal` type (with `PyVal.none`
standing for a missing value / NaN), Python dicts of heterogeneous values
become association lists or records with the `.get`-defaults as field
defaults, and floats become exact rationals.
-/

namespace DQ

/-- A Python/pandas cell value.  `PyVal.none` models a missing value
(`None` / `NaN` / `NaT`); `dt` models a parsed timestamp (kept as its
normalized string). -/
inductive PyVal where
  | none : PyVal
  | b : Bool → PyVal
  | num : ℚ → PyVal
  | s : String → PyVal
  | dt : String → PyVal
deriving DecidableEq, Repr, BEq

/-- Python `str(value)` as used on cells (`str(nan) == "nan"`,
`str(True) == "True"`).  Number rendering is modelled by the rational's
`toString`. -/
def pyStr : PyVal → String
  | .none => "nan"
  | .b true => "True"
  | .b false => "False"
  | .num q => toString q
  | .s str => str
  | .dt str => str

/-- `needle` begins the character list `hay` (helper for substring search). -/
def beginsWith : List Char → List Char → Bool
  | _, [] => true
  | [], _ :: _ => false
  | a :: as, c :: cs => a == c && beginsWith as cs

/-- Substring occurrence on character lists. -/
def hasSubList : List Char → List Char → Bool
  | [], needle => needle.isEmpty
  | hay@(_ :: t), needle => beginsWith hay needle || hasSubList t needle

/-- Python's `needle in hay` on strings. -/
def strContains (hay needle : String) : Bool :=
  hasSubList hay.data needle.data

/-- Python `str.lower()` (ASCII, character-wise; kernel-reducible unlike
`String.toLower`). -/
def strLower (s : String) : String :=
  ⟨s.data.map Char.toLower⟩

/-- Python `str.upper()` (ASCII, character-wise). -/
def strUpper (s : String) : String :=
  ⟨s.data.map Char.toUpper⟩

/-! ## `ndmo_standards.py` — the standards catalog -/

/-- `NDMOStandard` dataclass from `ndmo_standards.py`. -/
structure NDMOStandard where
  id : String
  name : String
  description : String
  category : String
  requirement : String
  threshold : ℚ
  weight : ℚ
  critical : Bool := false
deriving DecidableEq, Repr

/-- Catalog entry `DG001` of `_load_ndmo_standards`. -/
def stdDG001 : NDMOStandard :=
  { id := "DG001", name := "Unique Identifiers",
      description := "All data records must have unique identifiers",
      category := "Data Governance",
      requirement := "Primary key must exist and be unique",
      threshold := 1.0, weight := 0.2, critical := true}

/-- Catalog entry `DG002` of `_load_ndmo_standards`. -/
def stdDG002 : NDMOStandard :=
  { id := "DG002", name := "Data Lineage",
      description := "Data lineage must be documented and traceable",
      category := "Data Governance",
      requirement := "Source and transformation history must be documented",
      threshold := 0.8, weight := 0.15}

/-- Catalog entry `DG003` of `_load_ndmo_standards`. -/
def stdDG003 : NDMOStandard :=
  { id := "DG003", name := "Data Ownership",
      description := "Data ownership must be clearly defined",
      category := "Data Governance",
      requirement := "Data steward and owner must be identified",
      threshold := 0.9, weight := 0.1}

/-- Catalog entry `DQ001` of `_load_ndmo_standards`. -/
def stdDQ001 : NDMOStandard :=
  { id := "DQ001", name := "Data Completeness",
      description := "Data completeness must meet minimum thresholds",
      category := "Data Quality",
      requirement := "No more than 5% missing values in critical fields",
      threshold := 0.95, weight := 0.25, critical := true}

/-- Catalog entry `DQ002` of `_load_ndmo_standards`. -/
def stdDQ002 : NDMOStandard :=
  { id := "DQ002", name := "Data Accuracy",
      description := "Data accuracy must be validated and verified",
      category := "Data Quality",
      requirement := "Data must pass accuracy validation rules",
      threshold := 0.98, weight := 0.2, critical := true}

/-- Catalog entry `DQ003` of `_load_ndmo_standards`. -/
def stdDQ003 : NDMOStandard :=
  { id := "DQ003", name := "Data Consistency",
      description := "Data must be consistent across systems",
      category := "Data Quality",
      requirement := "Data values must be consistent with business rules",
      threshold := 0.95, weight := 0.15}

/-- Catalog entry `DQ004` of `_load_ndmo_standards`. -/
def stdDQ004 : NDMOStandard :=
  { id := "DQ004", name := "Data Uniqueness",
      description := "Duplicate records must be minimized",
      category := "Data Quality",
      requirement := "No more than 2% duplicate records",
      threshold := 0.98, weight := 0.15}

/-- Catalog entry `DQ005` of `_load_ndmo_standards`. -/
def stdDQ005 : NDMOStandard :=
  { id := "DQ005", name := "Data Validity",
      description := "Data must conform to defined formats and ranges",
      category := "Data Quality",
      requirement := "Data must pass format and range validation",
      threshold := 0.95, weight := 0.15}

/-- Catalog entry `DQ006` of `_load_ndmo_standards`. -/
def stdDQ006 : NDMOStandard :=
  { id := "DQ006", name := "Data Timeliness",
      description := "Data must be current and up-to-date",
      category := "Data Quality",
      requirement := "Data must be updated within defined timeframes",
      threshold := 0.9, weight := 0.1}

/-- Catalog entry `DS001` of `_load_ndmo_standards`. -/
def stdDS001 : NDMOStandard :=
  { id := "DS001", name := "Data Encryption",
      description := "Sensitive data must be encrypted",
      category := "Data Security",
      requirement := "PII and sensitive data must be encrypted at rest and in transit",
      threshold := 1.0, weight := 0.3, critical := true}

/-- Catalog entry `DS002` of `_load_ndmo_standards`. -/
def stdDS002 : NDMOStandard :=
  { id := "DS002", name := "Access Control",
      description := "Data access must be controlled and monitored",
      category := "Data Security",
      requirement := "Role-based access control must be implemented",
      threshold := 0.95, weight := 0.25}

/-- Catalog entry `DS003` of `_load_ndmo_standards`. -/
def stdDS003 : NDMOStandard :=
  { id := "DS003", name := "Data Masking",
      description := "Sensitive data must be masked in non-production environments",
      category := "Data Security",
      requirement := "PII must be masked in test and development environments",
      threshold := 1.0, weight := 0.2}

/-- Catalog entry `DS004` of `_load_ndmo_standards`. -/
def stdDS004 : NDMOStandard :=
  { id := "DS004", name := "Audit Trail",
      description := "Data access and modifications must be logged",
      category := "Data Security",
      requirement := "Complete audit trail must be maintained",
      threshold := 0.95, weight := 0.25}

/-- Catalog entry `DA001` of `_load_ndmo_standards`. -/
def stdDA001 : NDMOStandard :=
  { id := "DA001", name := "Data Modeling",
      description := "Data models must follow standard conventions",
      category := "Data Architecture",
      requirement := "Data models must follow naming conventions and best practices",
      threshold := 0.9, weight := 0.2}

/-- Catalog entry `DA002` of `_load_ndmo_standards`. -/
def stdDA002 : NDMOStandard :=
  { id := "DA002", name := "Data Integration",
      description := "Data integration must be standardized",
      category := "Data Architecture",
      requirement := "ETL processes must follow standard patterns",
      threshold := 0.85, weight := 0.15}

/-- Catalog entry `DA003` of `_load_ndmo_standards`. -/
def stdDA003 : NDMOStandard :=
  { id := "DA003", name := "Data Storage",
      description := "Data storage must follow retention policies",
      category := "Data Architecture",
      requirement := "Data must be stored according to retention policies",
      threshold := 0.9, weight := 0.15}

/-- Catalog entry `BR001` of `_load_ndmo_standards`. -/
def stdBR001 : NDMOStandard :=
  { id := "BR001", name := "Business Rule Validation",
      description := "Business rules must be implemented and validated",
      category := "Business Rules",
      requirement := "All business rules must be documented and implemented",
      threshold := 0.95, weight := 0.3}

/-- Catalog entry `BR002` of `_load_ndmo_standards`. -/
def stdBR002 : NDMOStandard :=
  { id := "BR002", name := "Data Relationships",
      description := "Data relationships must be properly defined",
      category := "Business Rules",
      requirement := "Foreign key relationships must be enforced",
      threshold := 0.9, weight := 0.2}

/-- Catalog entry `BR003` of `_load_ndmo_standards`. -/
def stdBR003 : NDMOStandard :=
  { id := "BR003", name := "Calculated Fields",
      description := "Calculated fields must be accurate and consistent",
      category := "Business Rules",
      requirement := "Calculated fields must follow business logic",
      threshold := 0.98, weight := 0.25}

/-- The fixed catalog built by `NDMOStandardsManager._load_ndmo_standards`,
in insertion order (Python dicts preserve insertion order). -/
def standardsList : List NDMOStandard :=
  [stdDG001, stdDG002, stdDG003, stdDQ001, stdDQ002, stdDQ003, stdDQ004, stdDQ005, stdDQ006, stdDS001, stdDS002, stdDS003, stdDS004, stdDA001, stdDA002, stdDA003, stdBR001, stdBR002, stdBR003]

/-- `NDMOStandardsManager._get_categories`. -/
def categories : List String :=
  ["Data Governance", "Data Quality", "Data Security", "Data Architecture",
   "Business Rules"]

/-- Dict lookup on a list of standards (first match, as in a Python dict
with distinct keys). -/
def findStandard : List NDMOStandard → String → Option NDMOStandard
  | [], _ => Option.none
  | std :: rest, standardId =>
    if std.id = standardId then some std else findStandard rest standardId

/-- `NDMOStandardsManager.get_standard` (dict lookup `self.standards.get`). -/
def getStandard (standardId : String) : Option NDMOStandard :=
  findStandard standardsList standardId

/-- `NDMOStandardsManager.get_standards_by_category`. -/
def getStandardsByCategory (category : String) : List NDMOStandard :=
  standardsList.filter (fun std => std.category = category)

/-- A `results` mapping standard-id → measured score.  A Python dict is an
association list with distinct keys; lookups take the first match. -/
abbrev Results := List (String × ℚ)

/-- `standard_id in results` / `results[standard_id]` dict access. -/
def lookupScore : Results → String → Option ℚ
  | [], _ => Option.none
  | r :: rest, standardId =>
    if r.1 = standardId then some r.2 else lookupScore rest standardId

/-- Weight contributed to `total_weight` by one loop iteration of
`calculate_compliance_score` (`0` when the id is not in the catalog). -/
def optWeight (found : Option NDMOStandard) : ℚ :=
  (found.map (fun std => std.weight)).getD 0

/-- `score * weight` contributed to `weighted_score` by one loop iteration
(`0` when the id is not in the catalog). -/
def optWeightedScore (score : ℚ) (found : Option NDMOStandard) : ℚ :=
  (found.map (fun std => score * std.weight)).getD 0

/-- The ids appended to `critical_failures` by one loop iteration: the
measured id when its standard is critical and the score is strictly below
the threshold. -/
def optCriticalFailure (standardId : String) (score : ℚ)
    (found : Option NDMOStandard) : List String :=
  (found.map (fun std =>
    if std.critical ∧ score < std.threshold then [standardId] else [])).getD []

/-- The `total_weight` accumulator of the loop in
`calculate_compliance_score`: weights of the measured ids that exist in the
catalog, added up in iteration order. -/
def totalWeight : Results → ℚ
  | [] => 0
  | r :: rest => optWeight (getStandard r.1) + totalWeight rest

/-- The `weighted_score` accumulator of the same loop: `score * weight`
summed over measured ids that exist in the catalog. -/
def weightedScore : Results → ℚ
  | [] => 0
  | r :: rest => optWeightedScore r.2 (getStandard r.1) + weightedScore rest

/-- The `critical_failures` accumulator: measured ids whose standard is
critical and whose score is strictly below the threshold, in iteration
order. -/
def criticalFailures : Results → List String
  | [] => []
  | r :: rest => optCriticalFailure r.1 r.2 (getStandard r.1) ++ criticalFailures rest

/-- `results[std.id] * std.weight` contributed to a `category_score` by one
standard of the category (`0` when the standard is not measured). -/
def optMeasuredScore (std : NDMOStandard) (measured : Option ℚ) : ℚ :=
  (measured.map (fun sc => sc * std.weight)).getD 0

/-- The `category_score` accumulator of `_calculate_category_scores`:
`results[std.id] * std.weight` added for each standard of the category that
is measured. -/
def categoryNumerator (results : Results) : List NDMOStandard → ℚ
  | [] => 0
  | std :: rest =>
    optMeasuredScore std (lookupScore results std.id) + categoryNumerator results rest

/-- `NDMOStandardsManager._calculate_category_scores` body for one
category: sum of `results[std.id] * std.weight` over the measured standards
of the category, divided by the total weight declared in the category. -/
def categoryScore (results : Results) (category : String) : ℚ :=
  let categoryStandards := getStandardsByCategory category
  let categoryWeight := (categoryStandards.map (·.weight)).sum
  let score := categoryNumerator results categoryStandards
  if categoryWeight > 0 then score / categoryWeight else 0

/-- `NDMOStandardsManager._calculate_category_scores`. -/
def calculateCategoryScores (results : Results) : List (String × ℚ) :=
  categories.map (fun c => (c, categoryScore results c))

/-- One line of `_generate_recommendations` (the numeric percent rendering
of the f-string is abstracted to `toString` of the exact rationals). -/
def recommendationLine (std : NDMOStandard) (score : ℚ) : String :=
  "Improve " ++ std.name ++ ": Current score " ++ toString score ++
  ", required " ++ toString std.threshold ++ ". " ++ std.requirement

/-- The lines appended by one loop iteration of
`_generate_recommendations`. -/
def optRecommendation (score : ℚ) (found : Option NDMOStandard) : List String :=
  (found.map (fun std =>
    if score < std.threshold then [recommendationLine std score] else [])).getD []

/-- `NDMOStandardsManager._generate_recommendations`: one line per measured
catalog standard whose score is below its threshold. -/
def generateRecommendations : Results → List String
  | [] => []
  | r :: rest => optRecommendation r.2 (getStandard r.1) ++ generateRecommendations rest

/-- The result dict of `calculate_compliance_score`. -/
structure ComplianceResult where
  overall_score : ℚ
  status : String
  critical_failures : List String
  category_scores : List (String × ℚ)
  recommendations : List String
deriving Repr

/-- `NDMOStandardsManager.calculate_compliance_score`. -/
def calculateComplianceScore (results : Results) : ComplianceResult :=
  let tw := totalWeight results
  let overall := if tw > 0 then weightedScore results / tw else 0
  let cf := criticalFailures results
  let status :=
    if cf ≠ [] then "non_compliant"
    else if overall ≥ 0.95 then "compliant"
    else if overall ≥ 0.8 then "partially_compliant"
    else "non_compliant"
  { overall_score := overall
    status := status
    critical_failures := cf
    category_scores := calculateCategoryScores results
    recommendations := generateRecommendations results }


/-! ## Supporting lemmas for the scorer -/

theorem findStandard_mem :
    ∀ (l : List NDMOStandard) (sid : String) (std : NDMOStandard),
      findStandard l sid = some std → std ∈ l := by
  intro l
  induction l with
  | nil => intro sid std h; simp [findStandard] at h
  | cons a t ih =>
    intro sid std h
    rw [findStandard] at h
    by_cases hid : a.id = sid
    · rw [if_pos hid] at h
      cases h
      exact List.mem_cons_self a t
    · rw [if_neg hid] at h
      exact List.mem_cons_of_mem a (ih sid std h)

theorem getStandard_mem {sid : String} {std : NDMOStandard}
    (h : getStandard sid = some std) : std ∈ standardsList :=
  findStandard_mem standardsList sid std h

theorem standardsList_weight_pos :
    ∀ std ∈ standardsList, 0 < std.weight := by
  intro std h
  fin_cases h <;>
    norm_num [stdDG001, stdDG002, stdDG003, stdDQ001, stdDQ002, stdDQ003, stdDQ004,
      stdDQ005, stdDQ006, stdDS001, stdDS002, stdDS003, stdDS004, stdDA001, stdDA002,
      stdDA003, stdBR001, stdBR002, stdBR003]

theorem criticalFailures_eq_nil_iff (results : Results) :
    criticalFailures results = [] ↔
      ∀ r ∈ results, ∀ std : NDMOStandard,
        getStandard r.1 = some std → std.critical = true → ¬ r.2 < std.threshold := by
  induction results with
  | nil => simp [criticalFailures]
  | cons r rest ih =>
    rw [criticalFailures, List.append_eq_nil, ih]
    constructor
    · rintro ⟨h1, h2⟩ p hp std hstd hcrit hlt
      rcases List.mem_cons.1 hp with rfl | hmem
      · rw [optCriticalFailure, hstd] at h1
        simp only [Option.map_some', Option.getD_some] at h1
        rw [if_pos ⟨hcrit, hlt⟩] at h1
        exact List.cons_ne_nil _ _ h1
      · exact h2 p hmem std hstd hcrit hlt
    · intro h
      refine ⟨?_, fun p hp std hstd hcrit hlt => h p (List.mem_cons_of_mem r hp) std hstd hcrit hlt⟩
      rw [optCriticalFailure]
      cases hstd : getStandard r.1 with
      | none => rfl
      | some std =>
        simp only [Option.map_some', Option.getD_some]
        rw [if_neg]
        rintro ⟨hcrit, hlt⟩
        exact h r (List.mem_cons_self r rest) std hstd hcrit hlt

/-- The weight an entry of the results mapping contributes to the overall
denominator (`0` when its id is not in the catalog); spec-side phrasing. -/
def entryWeight (r : String × ℚ) : ℚ :=
  ((getStandard r.1).map (fun std => std.weight)).getD 0

/-- The entries of the results mapping whose ids exist in the catalog;
spec-side phrasing. -/
def measuredEntries (results : Results) : Results :=
  results.filter (fun r => (getStandard r.1).isSome)

theorem totalWeight_eq (results : Results) :
    totalWeight results = ((measuredEntries results).map entryWeight).sum := by
  induction results with
  | nil => simp [totalWeight, measuredEntries]
  | cons r rest ih =>
    rw [totalWeight]
    cases hstd : getStandard r.1 with
    | none => simp [optWeight, hstd, measuredEntries, List.filter_cons, ih]
    | some std => simp [optWeight, hstd, measuredEntries, List.filter_cons, entryWeight, ih]

theorem weightedScore_eq (results : Results) :
    weightedScore results =
      ((measuredEntries results).map (fun r => r.2 * entryWeight r)).sum := by
  induction results with
  | nil => simp [weightedScore, measuredEntries]
  | cons r rest ih =>
    rw [weightedScore]
    cases hstd : getStandard r.1 with
    | none => simp [optWeightedScore, hstd, measuredEntries, List.filter_cons, ih]
    | some std => simp [optWeightedScore, hstd, measuredEntries, List.filter_cons, entryWeight, ih]

theorem totalWeight_eq_zero {results : Results} (h : totalWeight results = 0) :
    measuredEntries results = [] := by
  by_contra hne
  have hpos : 0 < totalWeight results := by
    rw [totalWeight_eq]
    apply List.sum_pos
    · intro x hx
      obtain ⟨r, hr, rfl⟩ := List.mem_map.1 hx
      have hsome : (getStandard r.1).isSome := by
        have := List.mem_filter.1 hr
        simpa using this.2
      obtain ⟨std, hstd⟩ := Option.isSome_iff_exists.1 hsome
      rw [entryWeight, hstd]
      simpa using standardsList_weight_pos std (getStandard_mem hstd)
    · intro hmap
      exact hne (List.map_eq_nil_iff.1 hmap)
  rw [h] at hpos
  exact lt_irrefl 0 hpos

theorem totalWeight_nonneg (results : Results) : 0 ≤ totalWeight results := by
  rw [totalWeight_eq]
  apply List.sum_nonneg
  intro x hx
  obtain ⟨r, hr, rfl⟩ := List.mem_map.1 hx
  rw [entryWeight]
  cases hstd : getStandard r.1 with
  | none => simp
  | some std => simpa using le_of_lt (standardsList_weight_pos std (getStandard_mem hstd))

theorem lookupScore_calculateCategoryScores (results : Results) (c : String)
    (hc : c ∈ categories) :
    lookupScore (calculateCategoryScores results) c = some (categoryScore results c) := by
  rw [calculateCategoryScores]
  have main : ∀ l : List String, c ∈ l →
      lookupScore (l.map (fun x => (x, categoryScore results x))) c
        = some (categoryScore results c) := by
    intro l
    induction l with
    | nil => intro h; simp at h
    | cons a t ih =>
      intro h
      rcases List.mem_cons.1 h with rfl | hm
      · rw [List.map_cons, lookupScore, if_pos rfl]
      · rw [List.map_cons, lookupScore]
        by_cases hac : a = c
        · subst hac; rw [if_pos rfl]
        · rw [if_neg hac]; exact ih hm
  exact main categories hc

theorem categoryNumerator_eq (results : Results) :
    ∀ stds : List NDMOStandard,
      categoryNumerator results stds =
        ((stds.filter (fun std => (lookupScore results std.id).isSome)).map
          (fun std => std.weight * ((lookupScore results std.id).getD 0))).sum := by
  intro stds
  induction stds with
  | nil => simp [categoryNumerator]
  | cons std t ih =>
    rw [categoryNumerator]
    cases hl : lookupScore results std.id with
    | none => simp [optMeasuredScore, hl, List.filter_cons, ih]
    | some sc =>
      simp only [optMeasuredScore, hl, List.filter_cons, Option.isSome_some, if_pos,
        List.map_cons, List.sum_cons, Option.map_some', Option.getD_some, ih]
      ring

theorem categoryWeight_pos (c : String) (hc : c ∈ categories) :
    0 < ((getStandardsByCategory c).map (fun std => std.weight)).sum := by
  have h1 : getStandardsByCategory "Data Governance" = [stdDG001, stdDG002, stdDG003] := rfl
  have h2 : getStandardsByCategory "Data Quality"
      = [stdDQ001, stdDQ002, stdDQ003, stdDQ004, stdDQ005, stdDQ006] := rfl
  have h3 : getStandardsByCategory "Data Security"
      = [stdDS001, stdDS002, stdDS003, stdDS004] := rfl
  have h4 : getStandardsByCategory "Data Architecture" = [stdDA001, stdDA002, stdDA003] := rfl
  have h5 : getStandardsByCategory "Business Rules" = [stdBR001, stdBR002, stdBR003] := rfl
  simp only [categories, List.mem_cons, List.not_mem_nil, or_false] at hc
  rcases hc with rfl | rfl | rfl | rfl | rfl <;>
    norm_num [h1, h2, h3, h4, h5, stdDG001, stdDG002, stdDG003, stdDQ001, stdDQ002,
      stdDQ003, stdDQ004, stdDQ005, stdDQ006, stdDS001, stdDS002, stdDS003, stdDS004,
      stdDA001, stdDA002, stdDA003, stdBR001, stdBR002, stdBR003]

/-! ## Claims C1, C2, C3 — the ComplianceScorer -/

/-- C1: for every results mapping, the status is `non_compliant` whenever
some measured critical standard scores strictly below its threshold
(regardless of the aggregate overall score); otherwise the status is
`compliant` for overall ≥ 0.95, `partially_compliant` for overall ≥ 0.8,
and `non_compliant` below that. -/
theorem compliance_status_characterization (results : Results) :
    ((∃ r ∈ results, ∃ std : NDMOStandard,
        getStandard r.1 = some std ∧ std.critical = true ∧ r.2 < std.threshold) →
      (calculateComplianceScore results).status = "non_compliant")
    ∧ ((¬ ∃ r ∈ results, ∃ std : NDMOStandard,
        getStandard r.1 = some std ∧ std.critical = true ∧ r.2 < std.threshold) →
      (calculateComplianceScore results).status =
        (if (calculateComplianceScore results).overall_score ≥ 0.95 then "compliant"
         else if (calculateComplianceScore results).overall_score ≥ 0.8 then
           "partially_compliant"
         else "non_compliant")) := by
  constructor
  · rintro ⟨r, hr, std, hstd, hcrit, hlt⟩
    have hne : criticalFailures results ≠ [] := fun hnil =>
      (criticalFailures_eq_nil_iff results).1 hnil r hr std hstd hcrit hlt
    simp only [calculateComplianceScore]
    rw [if_pos hne]
  · intro hnex
    have hnil : criticalFailures results = [] :=
      (criticalFailures_eq_nil_iff results).2
        (fun r hr std hstd hcrit hlt => hnex ⟨r, hr, std, hstd, hcrit, hlt⟩)
    simp only [calculateComplianceScore]
    rw [if_neg (fun hne => hne hnil)]

/-- Witness for C1: a failing critical standard (DQ001 at 0.5) forces
`non_compliant`, and with no critical failure the thresholds decide
(DG001 at 1.0 gives `compliant`). -/
theorem compliance_status_characterization_witness :
    (calculateComplianceScore [("DQ001", 1/2)]).status = "non_compliant"
    ∧ (calculateComplianceScore [("DG001", 1)]).status = "compliant" := by
  constructor
  · exact (compliance_status_characterization [("DQ001", 1/2)]).1
      ⟨("DQ001", 1/2), by simp, stdDQ001, rfl, rfl, by norm_num [stdDQ001]⟩
  · have hne : ¬ ∃ r ∈ [("DG001", (1:ℚ))], ∃ std : NDMOStandard,
        getStandard r.1 = some std ∧ std.critical = true ∧ r.2 < std.threshold := by
      rintro ⟨r, hr, std, hstd, hcrit, hlt⟩
      simp only [List.mem_singleton] at hr
      subst hr
      rw [show getStandard "DG001" = some stdDG001 from rfl] at hstd
      have hs := Option.some.inj hstd
      subst hs
      norm_num [stdDG001] at hlt
    have h := (compliance_status_characterization [("DG001", 1)]).2 hne
    have hov : (calculateComplianceScore [("DG001", 1)]).overall_score = 1 := by
      norm_num [calculateComplianceScore, totalWeight, weightedScore,
        show getStandard "DG001" = some stdDG001 from rfl, optWeight, optWeightedScore,
        stdDG001]
    rw [h, hov]
    norm_num

/-- C2: for every results mapping and catalog category, the category score
equals the sum of `weight * score` over the measured standards of the
category divided by the sum of the weights of all standards declared in
the category; with no measured standard it is `0`. -/
theorem category_score_characterization (results : Results) (c : String)
    (hc : c ∈ categories) :
    lookupScore (calculateComplianceScore results).category_scores c
        = some (categoryScore results c)
    ∧ categoryScore results c =
        (((getStandardsByCategory c).filter
            (fun std => (lookupScore results std.id).isSome)).map
          (fun std => std.weight * ((lookupScore results std.id).getD 0))).sum
        / ((getStandardsByCategory c).map (fun std => std.weight)).sum
    ∧ ((∀ std ∈ getStandardsByCategory c, lookupScore results std.id = Option.none) →
        categoryScore results c = 0) := by
  refine ⟨?_, ?_, ?_⟩
  · simp only [calculateComplianceScore]
    exact lookupScore_calculateCategoryScores results c hc
  · simp only [categoryScore]
    rw [if_pos (categoryWeight_pos c hc), categoryNumerator_eq]
  · intro hall
    have hnum : categoryNumerator results (getStandardsByCategory c) = 0 := by
      rw [categoryNumerator_eq]
      have hfil : (getStandardsByCategory c).filter
          (fun std => (lookupScore results std.id).isSome) = [] := by
        rw [List.filter_eq_nil_iff]
        intro std hstd
        simp [hall std hstd]
      rw [hfil]
      rfl
    simp only [categoryScore]
    rw [if_pos (categoryWeight_pos c hc), hnum, zero_div]

/-- Witness for C2: with an empty results mapping, the Data Quality
category score is recorded as `0`. -/
theorem category_score_characterization_witness :
    lookupScore (calculateComplianceScore []).category_scores "Data Quality" = some 0 := by
  have h := category_score_characterization [] "Data Quality" (by simp [categories])
  have h0 : categoryScore [] "Data Quality" = 0 := h.2.2 (by intro std _; rfl)
  rw [h.1, h0]

/-- C3: for every results mapping, the overall score is the weighted mean
over the catalog ids present (`Σ score·weight / Σ weight`), unknown ids are
ignored, the score is `0` when no catalog id is present, and
`{"DG001": 1.0}` yields overall 1.0 with status `compliant`. -/
theorem overall_score_characterization (results : Results) :
    ((calculateComplianceScore results).overall_score =
      ((measuredEntries results).map (fun r => r.2 * entryWeight r)).sum
        / ((measuredEntries results).map entryWeight).sum)
    ∧ ((∀ r ∈ results, getStandard r.1 = Option.none) →
        (calculateComplianceScore results).overall_score = 0)
    ∧ (calculateComplianceScore [("DG001", 1)]).overall_score = 1
    ∧ (calculateComplianceScore [("DG001", 1)]).status = "compliant" := by
  refine ⟨?_, ?_, ?_, ?_⟩
  · simp only [calculateComplianceScore]
    by_cases htw : totalWeight results > 0
    · rw [if_pos htw, totalWeight_eq, weightedScore_eq]
    · have h0 : totalWeight results = 0 :=
        le_antisymm (not_lt.1 htw) (totalWeight_nonneg results)
      rw [if_neg htw]
      have hnil := totalWeight_eq_zero h0
      rw [hnil]
      simp
  · intro hall
    have hme : measuredEntries results = [] := by
      rw [measuredEntries, List.filter_eq_nil_iff]
      intro r hr
      simp [hall r hr]
    have h0 : totalWeight results = 0 := by rw [totalWeight_eq, hme]; rfl
    simp only [calculateComplianceScore]
    rw [if_neg (by simp [h0])]
  · norm_num [calculateComplianceScore, totalWeight, weightedScore,
      show getStandard "DG001" = some stdDG001 from rfl, optWeight, optWeightedScore,
      stdDG001]
  · have hne : ¬ ∃ r ∈ [("DG001", (1:ℚ))], ∃ std : NDMOStandard,
        getStandard r.1 = some std ∧ std.critical = true ∧ r.2 < std.threshold := by
      rintro ⟨r, hr, std, hstd, hcrit, hlt⟩
      simp only [List.mem_singleton] at hr
      subst hr
      rw [show getStandard "DG001" = some stdDG001 from rfl] at hstd
      have hs := Option.some.inj hstd
      subst hs
      norm_num [stdDG001] at hlt
    have hnil : criticalFailures [("DG001", (1:ℚ))] = [] :=
      (criticalFailures_eq_nil_iff _).2
        (fun r hr std hstd hcrit hlt => hne ⟨r, hr, std, hstd, hcrit, hlt⟩)
    norm_num [calculateComplianceScore, totalWeight, weightedScore, hnil,
      show getStandard "DG001" = some stdDG001 from rfl, optWeight, optWeightedScore,
      stdDG001]

/-- Witness for C3: ids absent from the catalog are ignored and an
all-unknown mapping scores `0`. -/
theorem overall_score_characterization_witness :
    (calculateComplianceScore [("ZZZ", 1)]).overall_score = 0 := by
  apply (overall_score_characterization [("ZZZ", 1)]).2.1
  intro r hr
  simp only [List.mem_singleton] at hr
  subst hr
  rfl

/-! ## `smart_schema_analyzer.py` — parsing primitives

`pd.to_numeric` on a string is modelled by a float-literal parser (optional
sign, digits, optional fraction); `pd.to_datetime` success is modelled by a
`YYYY-MM-DD` shape test.  The claims depend only on which values succeed or
fail, never on exotic literal forms. -/

/-- Numeric value of a digit list. -/
def digitsVal (ds : List Char) : ℕ :=
  ds.foldl (fun acc c => acc * 10 + (c.toNat - '0'.toNat)) 0

/-- Parse a float literal: optional sign, digits, optional single `.` with
digit fraction (models `float()` / `pd.to_numeric` on a string). -/
def parseNumChars (cs : List Char) : Option ℚ :=
  let sgn : ℚ := if cs.head? = some '-' then -1 else 1
  let body := if cs.head? = some '-' ∨ cs.head? = some '+' then cs.tail else cs
  let intPart := body.takeWhile Char.isDigit
  let rest := body.drop intPart.length
  match rest with
  | [] => if intPart.isEmpty then Option.none else some (sgn * (digitsVal intPart : ℚ))
  | '.' :: fracPart =>
    if fracPart.all Char.isDigit ∧ ¬ (intPart.isEmpty ∧ fracPart.isEmpty) then
      some (sgn * ((digitsVal intPart : ℚ)
        + (digitsVal fracPart : ℚ) / (10 : ℚ) ^ fracPart.length))
    else Option.none
  | _ => Option.none

/-- `pd.to_numeric` on one string. -/
def parseNumStr (s : String) : Option ℚ :=
  parseNumChars s.data

/-- `pd.to_datetime` success on one string, modelled as a `YYYY-MM-DD`
shape test. -/
def isDateLike (s : String) : Bool :=
  match s.data with
  | [y1, y2, y3, y4, '-', m1, m2, '-', d1, d2] =>
    [y1, y2, y3, y4, m1, m2, d1, d2].all Char.isDigit
  | _ => false

/-- Numeric parse of one cell (`pd.to_numeric` semantics: numbers and
booleans succeed, strings must be numeric literals, everything else
fails). -/
def pyToNumeric : PyVal → Option ℚ
  | .num q => some q
  | .b bv => some (if bv then 1 else 0)
  | .s str => parseNumStr str
  | .dt _ => Option.none
  | .none => Option.none

/-- Datetime parse of one cell (`pd.to_datetime` semantics: timestamps and
numbers succeed, strings must look like dates, booleans raise). -/
def pyToDatetime : PyVal → Option String
  | .dt str => some str
  | .s str => if isDateLike str then some str else Option.none
  | .num q => some (toString q)
  | .b _ => Option.none
  | .none => Option.none

/-- The cell is a Python `bool` (for the `data.dtype == 'bool'` test). -/
def isBoolCell : PyVal → Bool
  | .b _ => true
  | _ => false

/-- The cell is a string. -/
def isStrCell : PyVal → Bool
  | .s _ => true
  | _ => false

/-- The cell is a number. -/
def isNumCell : PyVal → Bool
  | .num _ => true
  | _ => false

/-- `str(val).lower() in ['true','false','1','0','yes','no']`. -/
def isBoolLiteral (v : PyVal) : Bool :=
  ["true", "false", "1", "0", "yes", "no"].contains (strLower (pyStr v))

/-! ### The regex matchers of `_determine_data_type` -/

/-- Character class `[a-zA-Z0-9._%+-]` (local part of the email regex). -/
def isEmailLocalChar (c : Char) : Bool :=
  c.isAlphanum || c = '.' || c = '_' || c = '%' || c = '+' || c = '-'

/-- Character class `[a-zA-Z0-9.-]` (domain part of the email regex). -/
def isEmailDomainChar (c : Char) : Bool :=
  c.isAlphanum || c = '.' || c = '-'

/-- `[a-zA-Z]{2,}$`: at least two alphabetic characters. -/
def isTld (t : List Char) : Bool :=
  decide (t.length ≥ 2) && t.all Char.isAlpha

/-- Try every split `seen ++ '.' :: rest` of the domain against
`[a-zA-Z0-9.-]+\.[a-zA-Z]{2,}$` (`seen` holds the characters already
passed, in reverse; `all` is order-independent). -/
def emailDomainAux : List Char → List Char → Bool
  | _, [] => false
  | seen, c :: rest =>
    (decide (c = '.') && !seen.isEmpty && seen.all isEmailDomainChar && isTld rest)
      || emailDomainAux (c :: seen) rest

/-- Split a character list at its first `'@'`. -/
def splitAtFirstAmp : List Char → Option (List Char × List Char)
  | [] => Option.none
  | c :: rest =>
    if c = '@' then some ([], rest)
    else (splitAtFirstAmp rest).map (fun p => (c :: p.1, p.2))

/-- The email regex `^[a-zA-Z0-9._%+-]+@[a-zA-Z0-9.-]+\.[a-zA-Z]\x7b2,\x7d$`
(neither side of the `@` may contain another `@`, so matching against the
first `@` is exact). -/
def matchesEmail (s : String) : Bool :=
  match splitAtFirstAmp s.data with
  | some (localPart, domainPart) =>
    !localPart.isEmpty && localPart.all isEmailLocalChar && emailDomainAux [] domainPart
  | Option.none => false

/-- The phone regex `^[\+]?[1-9][\d]\x7b0,15\x7d$` applied to a character
list already stripped to digits and `+`. -/
def matchesPhoneCore (cs : List Char) : Bool :=
  match (if cs.head? = some '+' then cs.tail else cs) with
  | [] => false
  | d :: ds => d.isDigit && !(d = '0') && ds.all Char.isDigit && decide (ds.length ≤ 15)

/-- The phone test: `re.sub(r'[^\d+]', '', val)` then the phone regex. -/
def matchesPhone (s : String) : Bool :=
  matchesPhoneCore (s.data.filter (fun c => c.isDigit || c = '+'))

/-- The identifier regex `^[A-Za-z0-9_-]+$`. -/
def matchesIdentifier (s : String) : Bool :=
  !s.data.isEmpty && s.data.all (fun c => c.isAlphanum || c = '_' || c = '-')

/-- `SmartSchemaAnalyzer._determine_data_type` (input: the non-null values
of a column).  Checks run in source order: empty, all-numeric,
all-datetime, boolean, categorical, then the pattern tests over the first
10 samples where any single match wins, with `text` as fallback. -/
def determineDataType (data : List PyVal) : String :=
  if data.length = 0 then "empty"
  else if data.all (fun v => (pyToNumeric v).isSome) then "numeric"
  else if data.all (fun v => (pyToDatetime v).isSome) then "datetime"
  else if data.all isBoolCell || data.all isBoolLiteral then "boolean"
  else if ((data.dedup.length : ℚ) < (data.length : ℚ) * 0.5) then "categorical"
  else
    let samples := (data.take 10).map pyStr
    if samples.any matchesEmail then "email"
    else if samples.any matchesPhone then "phone"
    else if samples.any matchesIdentifier then "identifier"
    else "text"

/-! ## Column model (Python dicts as records / association lists) -/

/-- A value stored in a Python `constraints` dict. -/
inductive DVal where
  | null : DVal
  | b : Bool → DVal
  | num : ℚ → DVal
  | s : String → DVal
  | vals : List PyVal → DVal
deriving DecidableEq, Repr

/-- An insertion-ordered Python dict of constraint values. -/
abbrev CDict := List (String × DVal)

/-- `d.get(key)` (first match; keys of a Python dict are distinct). -/
def dictGet : CDict → String → Option DVal
  | [], _ => Option.none
  | (k, v) :: rest, key => if k = key then some v else dictGet rest key

/-- `d[key] = v`: update in place if present, else append (Python dict
insertion-order semantics). -/
def dictSet : CDict → String → DVal → CDict
  | [], key, v => [(key, v)]
  | (k, w) :: rest, key, v =>
    if k = key then (k, v) :: rest else (k, w) :: dictSet rest key v

/-- Python truthiness of a `d.get(key)` result (absent key = falsy). -/
def dictTruthy : Option DVal → Bool
  | some (.b bv) => bv
  | some (.num q) => decide (q ≠ 0)
  | some (.s str) => !str.isEmpty
  | some (.vals l) => !l.isEmpty
  | some .null => false
  | Option.none => false

/-- The statistics dict recorded per column. -/
structure ColumnStatistics where
  total_values : ℕ
  non_null_values : ℕ
  null_values : ℕ
  unique_values : ℕ
  duplicate_values : ℕ
deriving DecidableEq, Repr

/-- A column dict.  Field defaults model the `.get(key, default)` defaults
used by readers for keys a particular producer does not set. -/
structure Column where
  name : String := ""
  data_type : String := "unknown"
  nullable : Bool := true
  unique : Bool := false
  primary_key : Bool := false
  foreign_key : Bool := false
  constraints : CDict := []
  sample_values : List PyVal := []
  statistics : ColumnStatistics := ⟨0, 0, 0, 0, 0⟩
  quality_issues : List String := []
  ndmo_standard : String := ""
  description : String := ""
deriving Repr

/-- A business-rule dict (heterogeneous across producers; absent keys are
the defaults, e.g. `rule.get("implemented", False)`). -/
structure BusinessRule where
  rule_id : String := ""
  rule_name : String := ""
  name : String := ""
  type : String := ""
  description : String := ""
  implemented : Bool := false
  rule : String := ""
  columns : List String := []
  severity : String := ""
  ndmo_standard : String := ""
deriving Repr

/-- A relationship dict (heterogeneous across producers). -/
structure Relationship where
  type : String := ""
  child_column : String := ""
  source_column : String := ""
  parent_table : String := ""
  target_table : String := ""
  relationship_type : String := ""
  description : String := ""
deriving Repr

/-- The schema-level `quality_metrics` dict. -/
structure QualityMetrics where
  completeness : ℚ := 0
  consistency : ℚ := 0
  uniqueness : ℚ := 0
  validity : ℚ := 0
  overall_score : ℚ := 0
deriving DecidableEq, Repr

/-- One entry of the transformer's `compliance_improvements` list. -/
structure Improvement where
  improvement : String
  ndmo_standard : String
  description : String
deriving DecidableEq, Repr

/-- The schema-analysis dict produced by `_analyze_schema_structure` and
consumed by the problem analyzer and the compliance transformer. -/
structure Analysis where
  sheet_name : String := ""
  total_rows : ℕ := 0
  total_columns : ℕ := 0
  columns : List Column := []
  business_rules : List BusinessRule := []
  relationships : List Relationship := []
  data_types : List (String × String) := []
  constraints_map : List (String × CDict) := []
  quality_metrics : QualityMetrics := {}
  ndmo_compliant : Bool := false
  compliance_improvements : List Improvement := []
deriving Repr

/-! ## `SmartSchemaAnalyzer._analyze_column` and friends -/

/-- `column_data.dropna()`. -/
def notNullCells (cells : List PyVal) : List PyVal :=
  cells.filter (fun c => decide (c ≠ PyVal.none))

/-- `column_data.nunique()`: distinct non-null values. -/
def nuniqueCells (cells : List PyVal) : ℕ :=
  (notNullCells cells).dedup.length

/-- The statistics block of `_analyze_column` (lines 318-326):
`duplicate_values = len(column_data) - column_data.nunique()`, i.e. the
null cells are counted among the duplicates. -/
def columnStatistics (cells : List PyVal) : ColumnStatistics :=
  { total_values := cells.length
    non_null_values := (notNullCells cells).length
    null_values := cells.length - (notNullCells cells).length
    unique_values := nuniqueCells cells
    duplicate_values := cells.length - nuniqueCells cells }

/-- `SmartSchemaAnalyzer._analyze_column_constraints`.  (The percent
rendering of numbers is exact-rational here; on a column with
`total_values = 0` Python would raise `ZeroDivisionError` in the
quality-issue check, a path no claim touches — the model yields `0/0 = 0`.) -/
def analyzeColumnConstraints (cells : List PyVal) (columnName : String) : CDict :=
  let base : CDict :=
    [("required", .b false), ("min_length", .null), ("max_length", .null),
     ("min_value", .null), ("max_value", .null), ("allowed_values", .null),
     ("pattern", .null), ("format", .null)]
  let nonNull := notNullCells cells
  if nonNull.length = 0 then base
  else
    let c1 := if ¬ cells.any (fun c => c == PyVal.none) then
        dictSet base "required" (.b true) else base
    let lengths := nonNull.map (fun c => (pyStr c).length)
    let c2 := if nonNull.all isStrCell then
        dictSet (dictSet c1 "min_length" (.num ((lengths.min?).getD 0 : ℕ)))
          "max_length" (.num ((lengths.max?).getD 0 : ℕ))
      else c1
    let numValues := nonNull.filterMap pyToNumeric
    let c3 := if nonNull.all isNumCell then
        dictSet (dictSet c2 "min_value" (.num ((numValues.min?).getD 0)))
          "max_value" (.num ((numValues.max?).getD 0))
      else c2
    let c4 := if nonNull.dedup.length ≤ 20 then
        dictSet c3 "allowed_values" (.vals nonNull.dedup)
      else c3
    let lower := strLower columnName
    if strContains lower "email" then
      dictSet (dictSet c4 "pattern"
        (.s "^[a-zA-Z0-9._%+-]+@[a-zA-Z0-9.-]+\\.[a-zA-Z]\x7b2,\x7d$")) "format" (.s "email")
    else if strContains lower "phone" then
      dictSet (dictSet c4 "pattern" (.s "^[\\+]?[1-9][\\d]\x7b0,15\x7d$")) "format" (.s "phone")
    else if strContains lower "date" then
      dictSet c4 "format" (.s "date")
    else c4

/-- `SmartSchemaAnalyzer._is_primary_key`: name pattern and fully unique
and no nulls. -/
def isPrimaryKeyCol (columnName : String) (cells : List PyVal) : Bool :=
  (["id", "key", "pk", "primary", "serial"].any
      (fun p => strContains (strLower columnName) p))
    && decide (nuniqueCells cells = cells.length)
    && !(cells.any (fun c => c == PyVal.none))

/-- `SmartSchemaAnalyzer._is_foreign_key` (name heuristic only). -/
def isForeignKeyCol (columnName : String) : Bool :=
  ["_id", "_key", "ref_", "foreign"].any (fun p => strContains (strLower columnName) p)

/-- `SmartSchemaAnalyzer._identify_column_quality_issues` (numbers in the
messages rendered as exact rationals instead of `{:.1%}`). -/
def identifyColumnQualityIssues (columnName : String) (stats : ColumnStatistics)
    (dataType : String) : List String :=
  (if (stats.null_values : ℚ) / (stats.total_values : ℚ) > 0.1 then
     ["High null percentage: "
       ++ toString ((stats.null_values : ℚ) / (stats.total_values : ℚ))]
   else [])
  ++ (if strContains (strLower columnName) "id" = true ∧
        (stats.unique_values : ℚ) / (stats.total_values : ℚ) < 0.95 then
     ["Low uniqueness in ID field: "
       ++ toString ((stats.unique_values : ℚ) / (stats.total_values : ℚ))]
   else [])
  ++ (if dataType = "unknown" then ["Unable to determine data type"] else [])

/-- `SmartSchemaAnalyzer._analyze_column`. -/
def analyzeColumn (cells : List PyVal) (columnName : String) : Column :=
  let stats := columnStatistics cells
  let nonNull := notNullCells cells
  let dataType := determineDataType nonNull
  let pk := isPrimaryKeyCol columnName cells
  { name := columnName
    data_type := dataType
    nullable := cells.any (fun c => c == PyVal.none)
    unique := pk || decide (nuniqueCells cells = cells.length)
    primary_key := pk
    foreign_key := isForeignKeyCol columnName
    constraints := analyzeColumnConstraints cells columnName
    sample_values := nonNull.take 5
    statistics := stats
    quality_issues := identifyColumnQualityIssues columnName stats dataType }

/-! ## `SmartSchemaAnalyzer` — table-level analysis -/

/-- A DataFrame, column-oriented: header with its cells, in column order.
All columns have equal length in a real frame. -/
abbrev DF := List (String × List PyVal)

/-- The frame's headers (`schema_df.columns`). -/
def dfHeaders (df : DF) : List String :=
  df.map Prod.fst

/-- `len(schema_df)`: the row count. -/
def rowCount (df : DF) : ℕ :=
  match df with
  | [] => 0
  | col :: _ => col.2.length

/-- `SmartSchemaAnalyzer._is_schema_definition`: header-name test for the
definition shape. -/
def isSchemaDefinition (df : DF) : Bool :=
  (dfHeaders df).contains "COLUMN_NAME" || (dfHeaders df).contains "column_name"
    || (dfHeaders df).contains "DATA_TYPE" || (dfHeaders df).contains "data_type"
    || (dfHeaders df).contains "TABLE_NAME" || (dfHeaders df).contains "table_name"

/-- One row of the frame as a header→value mapping (`row.index` lookup). -/
abbrev Row := List (String × PyVal)

/-- `key in row.index` / `row[key]` (first match). -/
def rowGet : Row → String → Option PyVal
  | [], _ => Option.none
  | (k, v) :: rest, key => if k = key then some v else rowGet rest key

/-- `schema_df.iterrows()`: the rows of the column-oriented frame. -/
def dfRows (df : DF) : List Row :=
  (List.range (rowCount df)).map
    (fun i => df.map (fun col => (col.1, (col.2.get? i).getD PyVal.none)))

/-- `SmartSchemaAnalyzer._map_database_type_to_standard`. -/
def mapDatabaseTypeToStandard (dbType : String) : String :=
  let t := strLower dbType
  if strContains t "int" || strContains t "bigint" || strContains t "smallint" then
    "numeric"
  else if strContains t "float" || strContains t "double" || strContains t "decimal"
      || strContains t "numeric" then "numeric"
  else if strContains t "varchar" || strContains t "char" || strContains t "text"
      || strContains t "nvarchar" then "text"
  else if strContains t "date" || strContains t "time" || strContains t "datetime"
      || strContains t "timestamp" then "datetime"
  else if strContains t "bool" || strContains t "bit" then "boolean"
  else "text"

/-- `SmartSchemaAnalyzer._analyze_schema_row` (one definition-format row as
a column description).  `int(row['CHARACTER_MAXIMUM_LENGTH'])` is modelled
by the numeric cell parse. -/
def analyzeSchemaRow (row : Row) (index : ℕ) : Column :=
  let nameVal :=
    match rowGet row "COLUMN_NAME" with
    | some v => pyStr v
    | Option.none =>
      match rowGet row "column_name" with
      | some v => pyStr v
      | Option.none => "Column_" ++ toString (index + 1)
  let dataType :=
    match rowGet row "DATA_TYPE" with
    | some v => mapDatabaseTypeToStandard (strLower (pyStr v))
    | Option.none =>
      match rowGet row "data_type" with
      | some v => mapDatabaseTypeToStandard (strLower (pyStr v))
      | Option.none => "unknown"
  let nullable :=
    match rowGet row "IS_NULLABLE" with
    | some v => (strUpper (pyStr v)) = "YES"
    | Option.none =>
      match rowGet row "is_nullable" with
      | some v => (strUpper (pyStr v)) = "YES"
      | Option.none => true
  let base : CDict :=
    [("required", .b (!nullable)), ("min_length", .null), ("max_length", .null),
     ("min_value", .null), ("max_value", .null), ("allowed_values", .vals []),
     ("pattern", .null), ("format", .null)]
  let constraints :=
    match rowGet row "CHARACTER_MAXIMUM_LENGTH" with
    | some v =>
      if v ≠ PyVal.none then dictSet base "max_length" (.num ((pyToNumeric v).getD 0))
      else base
    | Option.none =>
      match rowGet row "character_maximum_length" with
      | some v =>
        if v ≠ PyVal.none then dictSet base "max_length" (.num ((pyToNumeric v).getD 0))
        else base
      | Option.none => base
  { name := nameVal
    data_type := dataType
    nullable := nullable
    unique := false
    primary_key := false
    foreign_key := false
    constraints := constraints
    sample_values := [PyVal.s nameVal]
    statistics := ⟨1, 1, 0, 1, 0⟩
    quality_issues := [] }

/-- Snake-case naming test (`^[a-z][a-z0-9_]*$` on the lowered name). -/
def isConsistentNaming (columnName : String) : Bool :=
  match (strLower columnName).data with
  | [] => false
  | c :: rest =>
    (c.isAlpha && c.isLower)
      && rest.all (fun ch => (ch.isAlpha && ch.isLower) || ch.isDigit || ch = '_')

/-- `SmartSchemaAnalyzer._calculate_schema_quality_metrics`.  Note
`overall_score = np.mean(list(metrics.values()))` averages five entries —
the four fractions and the initial `overall_score = 0.0`. -/
def calcSchemaQualityMetrics (columns : List Column) : QualityMetrics :=
  if columns.length = 0 then {}
  else
    let n : ℚ := columns.length
    let completeness :=
      ((columns.filter (fun c => decide (c.data_type ≠ "unknown"))).length : ℚ) / n
    let consistency :=
      ((columns.filter (fun c => isConsistentNaming c.name)).length : ℚ) / n
    let uniqueness :=
      ((columns.filter (fun c => c.unique || c.primary_key)).length : ℚ) / n
    let validity :=
      ((columns.filter (fun c => !c.constraints.isEmpty)).length : ℚ) / n
    { completeness := completeness
      consistency := consistency
      uniqueness := uniqueness
      validity := validity
      overall_score := (completeness + consistency + uniqueness + validity + 0) / 5 }

/-- `SmartSchemaAnalyzer._extract_business_rules` (regular shape). -/
def extractBusinessRules (df : DF) : List BusinessRule :=
  ((dfHeaders df).filter
      (fun h => strContains (strLower h) "rule" || strContains (strLower h) "constraint")).map
    (fun h =>
      { name := h, type := "constraint",
        description := "Business rule defined in column: " ++ h,
        implemented := true })
  ++ [ { name := "Unique Identifiers", type := "uniqueness",
         description := "All records must have unique identifiers",
         implemented := false },
       { name := "Data Validation", type := "validation",
         description := "Data must pass validation rules",
         implemented := false },
       { name := "Referential Integrity", type := "integrity",
         description := "Foreign key relationships must be maintained",
         implemented := false } ]

/-- `SmartSchemaAnalyzer._analyze_relationships` (regular shape). -/
def analyzeRelationships (df : DF) : List Relationship :=
  (df.filter (fun col => isForeignKeyCol col.1)).map
    (fun col =>
      { type := "foreign_key", child_column := col.1,
        parent_table := (col.1.replace "_id" "").replace "_key" "",
        relationship_type := "many_to_one" })

/-- `SmartSchemaAnalyzer._extract_business_rules_from_schema` (definition
shape).  Row filter `schema_df['IS_NULLABLE'] == 'NO'`. -/
def extractBusinessRulesFromSchema (df : DF) : List BusinessRule :=
  if (dfHeaders df).contains "IS_NULLABLE" then
    let nonNullableRows :=
      (dfRows df).filter (fun row => rowGet row "IS_NULLABLE" == some (PyVal.s "NO"))
    if nonNullableRows.length > 0 then
      [ { rule_id := "BR001", rule_name := "Required Fields",
          description := "Fields that cannot be null",
          columns :=
            if (dfHeaders df).contains "COLUMN_NAME" then
              nonNullableRows.map (fun row => pyStr ((rowGet row "COLUMN_NAME").getD PyVal.none))
            else [],
          severity := "high" } ]
    else []
  else []

/-- `SmartSchemaAnalyzer._analyze_relationships_from_schema` (definition
shape). -/
def analyzeRelationshipsFromSchema (df : DF) : List Relationship :=
  if (dfHeaders df).contains "COLUMN_NAME" then
    (((df.find? (fun col => col.1 = "COLUMN_NAME")).map Prod.snd).getD []).filterMap
      (fun v =>
        let nm := pyStr v
        if strContains (strLower nm) "id" && !(strLower nm = "id") then
          some { type := "foreign_key", source_column := nm,
                 target_table := (nm.replace "_id" "").replace "ID" "",
                 description := "Foreign key relationship to "
                   ++ ((nm.replace "_id" "").replace "ID" "") ++ " table" }
        else Option.none)
  else []

/-- `SmartSchemaAnalyzer._analyze_regular_data_format`. -/
def analyzeRegularDataFormat (df : DF) (sheetName : String) : Analysis :=
  let cols := df.map (fun col => analyzeColumn col.2 col.1)
  { sheet_name := sheetName
    total_rows := rowCount df
    total_columns := df.length
    columns := cols
    business_rules := extractBusinessRules df
    relationships := analyzeRelationships df
    data_types := cols.map (fun c => (c.name, c.data_type))
    constraints_map := cols.map (fun c => (c.name, c.constraints))
    quality_metrics := calcSchemaQualityMetrics cols }

/-- `SmartSchemaAnalyzer._analyze_schema_definition_format` (both
`total_rows` and `total_columns` are `len(schema_df)` in the source). -/
def analyzeSchemaDefinitionFormat (df : DF) (sheetName : String) : Analysis :=
  let cols := ((dfRows df).enum).map (fun p => analyzeSchemaRow p.2 p.1)
  { sheet_name := sheetName
    total_rows := rowCount df
    total_columns := rowCount df
    columns := cols
    business_rules := extractBusinessRulesFromSchema df
    relationships := analyzeRelationshipsFromSchema df
    data_types := cols.map (fun c => (c.name, c.data_type))
    constraints_map := cols.map (fun c => (c.name, c.constraints))
    quality_metrics := calcSchemaQualityMetrics cols }

/-- `SmartSchemaAnalyzer._analyze_schema_structure`: shape dispatch. -/
def analyzeSchemaStructure (df : DF) (sheetName : String) : Analysis :=
  if isSchemaDefinition df then analyzeSchemaDefinitionFormat df sheetName
  else analyzeRegularDataFormat df sheetName

/-- `SmartSchemaAnalyzer._find_schema_sheet`. -/
def findSchemaSheet (sheetNames : List String) : Option String :=
  sheetNames.find? (fun nm =>
    ["schema", "structure", "definition", "metadata", "template"].any
      (fun p => strContains (strLower nm) p))

/-- The sheet-selection logic of `analyze_schema_file` (lines 44-51): a
named schema sheet, else the first sheet, else the single terminal
`ValueError("No sheets found in the file")`. -/
def chooseSchemaSheet (sheetNames : List String) : Except String String :=
  match findSchemaSheet sheetNames with
  | some sheet => .ok sheet
  | Option.none =>
    match sheetNames with
    | [] => .error "No sheets found in the file"
    | first :: _ => .ok first

/-! ## Claims C7, C9, C10 — the SchemaInferenceEngine -/

/-- C9 (as stated): once the all-numeric, all-datetime, boolean and
categorical checks have failed on a nonempty column, the inferred type is
decided by testing the first 10 samples against the email, phone and
identifier matchers in that order, any single match winning, with `text`
as fallback. -/
theorem pattern_type_inference (data : List PyVal)
    (h0 : data ≠ [])
    (h1 : data.all (fun v => (pyToNumeric v).isSome) = false)
    (h2 : data.all (fun v => (pyToDatetime v).isSome) = false)
    (h3 : (data.all isBoolCell || data.all isBoolLiteral) = false)
    (h4 : ¬ ((data.dedup.length : ℚ) < (data.length : ℚ) * 0.5)) :
    determineDataType data =
      (let samples := (data.take 10).map pyStr
       if samples.any matchesEmail then "email"
       else if samples.any matchesPhone then "phone"
       else if samples.any matchesIdentifier then "identifier"
       else "text") := by
  have hlen : ¬ data.length = 0 := by simpa using h0
  unfold determineDataType
  rw [if_neg hlen, if_neg (by simp [h1]), if_neg (by simp [h2]),
    if_neg (by simp [h3]), if_neg h4]

/-- Witness for C9 — Scenario C: the column
`["a@b.com", "c@d.com", "not-an-email"]` is inferred as `email`. -/
theorem pattern_type_inference_witness :
    determineDataType [PyVal.s "a@b.com", PyVal.s "c@d.com", PyVal.s "not-an-email"]
      = "email" := by
  have h4 : ¬ ((([PyVal.s "a@b.com", PyVal.s "c@d.com",
      PyVal.s "not-an-email"]).dedup.length : ℚ)
        < (([PyVal.s "a@b.com", PyVal.s "c@d.com", PyVal.s "not-an-email"]).length : ℚ)
          * 0.5) := by
    rw [show ([PyVal.s "a@b.com", PyVal.s "c@d.com",
        PyVal.s "not-an-email"]).dedup.length = 3 from by decide]
    norm_num
  have h := pattern_type_inference
    [PyVal.s "a@b.com", PyVal.s "c@d.com", PyVal.s "not-an-email"]
    (by decide) (by decide) (by decide) (by decide) h4
  rw [h]
  decide

/-- C7 amended: `_analyze_column` records
`duplicate_values = total_values - unique_values` (nulls included in the
total), which agrees with the claimed `non_null - distinct` exactly when
the column has no nulls. -/
theorem column_duplicate_statistic (cells : List PyVal) (columnName : String) :
    ((analyzeColumn cells columnName).statistics.duplicate_values
        = (analyzeColumn cells columnName).statistics.total_values
          - (analyzeColumn cells columnName).statistics.unique_values)
    ∧ ((analyzeColumn cells columnName).statistics.null_values = 0 →
        (analyzeColumn cells columnName).statistics.duplicate_values
          = (analyzeColumn cells columnName).statistics.non_null_values
            - (analyzeColumn cells columnName).statistics.unique_values) := by
  have hs : (analyzeColumn cells columnName).statistics = columnStatistics cells := rfl
  rw [hs]
  refine ⟨rfl, ?_⟩
  intro h0
  have hle : cells.length ≤ (notNullCells cells).length :=
    Nat.sub_eq_zero_iff_le.1 (by simpa [columnStatistics] using h0)
  have hlen : (notNullCells cells).length = cells.length :=
    le_antisymm (List.length_filter_le _ _) hle
  simp [columnStatistics, hlen]

/-- Counterexample for C7 as stated: on the column `["a", null]` the
recorded duplicate count is `total - distinct = 1`, not
`non_null - distinct = 0`. -/
theorem column_duplicate_statistic_counterexample :
    ¬ ((analyzeColumn [PyVal.s "a", PyVal.none] "v").statistics.duplicate_values
        = (analyzeColumn [PyVal.s "a", PyVal.none] "v").statistics.non_null_values
          - (analyzeColumn [PyVal.s "a", PyVal.none] "v").statistics.unique_values) := by
  decide

/-- Witness for C7 — Scenario D: on `[1, 2, 2, 3]` (no nulls) the recorded
statistics give distinct 3, duplicate 1, and the claimed identity holds. -/
theorem column_duplicate_statistic_witness :
    (analyzeColumn [PyVal.num 1, PyVal.num 2, PyVal.num 2, PyVal.num 3] "v").statistics.unique_values
        = 3
    ∧ (analyzeColumn [PyVal.num 1, PyVal.num 2, PyVal.num 2, PyVal.num 3] "v").statistics.duplicate_values
        = 1
    ∧ (analyzeColumn [PyVal.num 1, PyVal.num 2, PyVal.num 2, PyVal.num 3] "v").statistics.duplicate_values
        = (analyzeColumn [PyVal.num 1, PyVal.num 2, PyVal.num 2, PyVal.num 3] "v").statistics.non_null_values
          - (analyzeColumn [PyVal.num 1, PyVal.num 2, PyVal.num 2, PyVal.num 3] "v").statistics.unique_values := by
  refine ⟨by decide, by decide, ?_⟩
  exact (column_duplicate_statistic
    [PyVal.num 1, PyVal.num 2, PyVal.num 2, PyVal.num 3] "v").2 (by decide)

/-- C10 amended: only a workbook with no sheets raises the single terminal
error (`analyze_schema_file` then returns an error result and no model); an
empty table reaching structural analysis is processed by the regular-data
branch and yields a Schema Model with an empty column list and all-zero
quality metrics, not an error. -/
theorem input_shape_handling :
    chooseSchemaSheet [] = .error "No sheets found in the file"
    ∧ (∀ sheetName : String,
        (analyzeSchemaStructure [] sheetName).columns = []
        ∧ (analyzeSchemaStructure [] sheetName).quality_metrics = {}) :=
  ⟨rfl, fun _ => ⟨rfl, rfl⟩⟩

/-- Counterexample for C10 as stated: the structural analysis of an empty
table does not fail — it returns a Schema Model whose column list is
empty. -/
theorem input_shape_handling_counterexample :
    (analyzeSchemaStructure [] "Sheet1").columns = []
    ∧ (analyzeSchemaStructure [] "Sheet1").total_columns = 0 :=
  ⟨rfl, rfl⟩

/-- Witness for C10. -/
theorem input_shape_handling_witness :
    (analyzeSchemaStructure [] "Data").columns = [] :=
  (input_shape_handling.2 "Data").1

/-! ## `schema_problem_analyzer.py` — `SchemaProblemAnalyzer` -/

/-- A problem dict emitted by the rule checks. -/
structure Problem where
  id : String
  name : String
  description : String
  impact : String
  solution : String
  «example» : String
deriving Repr

/-- The sensitive-name keywords of the DS001 check. -/
def sensitiveKeywords : List String :=
  ["password", "ssn", "credit", "card", "secret", "private"]

/-- `_analyze_data_governance_problems`: its critical contributions
(DG001 when no column is flagged primary key). -/
def governanceCriticalProblems (columns : List Column) : List Problem :=
  if ¬ columns.any (fun c => c.primary_key) then
    [{ id := "DG001", name := "Missing Primary Key",
       description := "No primary key found in schema",
       impact := "Critical - Data integrity compromised",
       solution := "Add a primary key column (e.g., 'id', 'serial_number')",
       «example» := "Add column: 'id' (integer, auto-increment, primary key)" }]
  else []

/-- `_analyze_data_governance_problems`: its major contributions (DG002,
DG003). -/
def governanceMajorProblems (columns : List Column) : List Problem :=
  (if ¬ columns.any (fun c => strContains (strLower c.name) "documentation") then
    [{ id := "DG002", name := "Missing Data Lineage",
       description := "No data lineage documentation found",
       impact := "Major - Data traceability compromised",
       solution := "Add columns for data source and transformation history",
       «example» := "Add columns: 'data_source', 'created_date', 'last_modified'" }]
  else [])
  ++ (if ¬ columns.any (fun c =>
        strContains (strLower c.name) "owner" || strContains (strLower c.name) "steward") then
    [{ id := "DG003", name := "Missing Data Ownership",
       description := "No data ownership information found",
       impact := "Major - Data accountability unclear",
       solution := "Add columns for data owner and steward",
       «example» := "Add columns: 'data_owner', 'data_steward', 'department'" }]
  else [])

/-- `_analyze_data_quality_problems`: its major contributions (DQ001,
DQ002, DQ004). -/
def qualityMajorProblems (columns : List Column) : List Problem :=
  let requiredFields :=
    (columns.filter (fun c => dictTruthy (dictGet c.constraints "required"))).length
  let fieldsWithValidation :=
    (columns.filter (fun c => !c.constraints.isEmpty)).length
  let uniqueFields := (columns.filter (fun c => c.unique)).length
  (if (requiredFields : ℚ) < (columns.length : ℚ) * 0.3 then
    [{ id := "DQ001", name := "Insufficient Required Fields",
       description := "Only " ++ toString requiredFields ++ " out of "
         ++ toString columns.length ++ " fields are marked as required",
       impact := "Major - Data completeness compromised",
       solution := "Mark critical fields as required",
       «example» := "Set required=True for: customer_id, invoice_number, amount, date" }]
  else [])
  ++ (if (fieldsWithValidation : ℚ) < (columns.length : ℚ) * 0.5 then
    [{ id := "DQ002", name := "Insufficient Data Validation",
       description := "Only " ++ toString fieldsWithValidation ++ " out of "
         ++ toString columns.length ++ " fields have validation rules",
       impact := "Major - Data accuracy compromised",
       solution := "Add validation rules for all fields",
       «example» := "Add constraints: min_length, max_length, allowed_values, pattern" }]
  else [])
  ++ (if uniqueFields < 2 then
    [{ id := "DQ004", name := "Insufficient Uniqueness Constraints",
       description := "Only " ++ toString uniqueFields
         ++ " fields have uniqueness constraints",
       impact := "Major - Data uniqueness compromised",
       solution := "Add uniqueness constraints to key fields",
       «example» := "Set unique=True for: customer_id, invoice_number, email" }]
  else [])

/-- `_analyze_data_quality_problems`: its minor contribution (DQ005). -/
def qualityMinorProblems (columns : List Column) : List Problem :=
  let unknownTypes := (columns.filter (fun c => c.data_type = "unknown")).length
  if unknownTypes > 0 then
    [{ id := "DQ005", name := "Unknown Data Types",
       description := toString unknownTypes ++ " fields have unknown data types",
       impact := "Minor - Data type validation compromised",
       solution := "Define specific data types for all fields",
       «example» := "Set data_type: 'numeric', 'datetime', 'text', 'email', 'phone'" }]
  else []

/-- `_analyze_data_security_problems`: its critical contribution (DS001
when some column name contains a sensitive keyword). -/
def securityCriticalProblems (columns : List Column) : List Problem :=
  let sensitiveFields := columns.filter
    (fun c => sensitiveKeywords.any (fun kw => strContains (strLower c.name) kw))
  if !sensitiveFields.isEmpty then
    [{ id := "DS001", name := "Sensitive Data Exposure",
       description := "Found " ++ toString sensitiveFields.length
         ++ " fields with sensitive data",
       impact := "Critical - Data security compromised",
       solution := "Encrypt or mask sensitive data fields",
       «example» := "Add encryption for: password, ssn, credit_card_number" }]
  else []

/-- `_analyze_data_security_problems`: its major contributions (DS002,
DS004). -/
def securityMajorProblems (columns : List Column) : List Problem :=
  (if ¬ columns.any (fun c =>
      strContains (strLower c.name) "access" || strContains (strLower c.name) "permission") then
    [{ id := "DS002", name := "Missing Access Control",
       description := "No access control information found",
       impact := "Major - Data access control compromised",
       solution := "Add access control fields",
       «example» := "Add columns: 'access_level', 'permissions', 'user_role'" }]
  else [])
  ++ (if ¬ columns.any (fun c =>
        ["created", "modified", "updated", "audit", "log"].any
          (fun kw => strContains (strLower c.name) kw)) then
    [{ id := "DS004", name := "Missing Audit Trail",
       description := "No audit trail information found",
       impact := "Major - Data tracking compromised",
       solution := "Add audit trail fields",
       «example» := "Add columns: 'created_date', 'modified_date', 'created_by', 'modified_by'" }]
  else [])

/-- `_analyze_data_architecture_problems` (DA001, DA002, both minor). -/
def architectureMinorProblems (columns : List Column) : List Problem :=
  let inconsistentNaming :=
    (columns.filter (fun c => !isConsistentNaming c.name)).length
  (if inconsistentNaming > 0 then
    [{ id := "DA001", name := "Inconsistent Naming",
       description := toString inconsistentNaming ++ " fields have inconsistent naming",
       impact := "Minor - Data architecture compromised",
       solution := "Standardize field naming conventions",
       «example» := "Use snake_case: customer_id, invoice_number, created_date" }]
  else [])
  ++ (if ¬ columns.any (fun c =>
        ["source", "system", "import", "sync"].any
          (fun kw => strContains (strLower c.name) kw)) then
    [{ id := "DA002", name := "Missing Integration Fields",
       description := "No data integration information found",
       impact := "Minor - Data integration compromised",
       solution := "Add integration tracking fields",
       «example» := "Add columns: 'source_system', 'import_date', 'sync_status'" }]
  else [])

/-- `_analyze_business_rules_problems` (BR001, BR002, both major). -/
def businessRulesMajorProblems (schemaInfo : Analysis) : List Problem :=
  let businessRules := schemaInfo.business_rules
  let implementedRules := (businessRules.filter (fun r => r.implemented)).length
  (if (implementedRules : ℚ) < (businessRules.length : ℚ) * 0.5 then
    [{ id := "BR001", name := "Insufficient Business Rules",
       description := "Only " ++ toString implementedRules ++ " out of "
         ++ toString businessRules.length ++ " business rules are implemented",
       impact := "Major - Business logic compromised",
       solution := "Implement all business rules",
       «example» := "Add validation: amount > 0, date <= today, status in ['active', 'inactive']" }]
  else [])
  ++ (if schemaInfo.relationships.length = 0 then
    [{ id := "BR002", name := "Missing Data Relationships",
       description := "No data relationships defined",
       impact := "Major - Data integrity compromised",
       solution := "Define foreign key relationships",
       «example» := "Add relationships: customer_id -> customers.id, invoice_id -> invoices.id" }]
  else [])

/-- One entry of the correction-plan action lists. -/
structure PlanAction where
  problem_id : String
  action : String
  «example» : String
  effort : String
  priority : String
deriving Repr

/-- The `estimated_effort` dict (hours). -/
structure EstimatedEffort where
  immediate : ℚ
  short_term : ℚ
  long_term : ℚ
  total : ℚ
deriving Repr

/-- The correction plan of `_generate_correction_plan`. -/
structure CorrectionPlan where
  immediate_actions : List PlanAction
  short_term_actions : List PlanAction
  long_term_actions : List PlanAction
  estimated_effort : EstimatedEffort
  resources_needed : List String
deriving Repr

/-- One entry of `priority_actions`. -/
structure PriorityAction where
  problem_id : String
  name : String
  priority : ℕ
  impact : String
  effort : String
  action : String
deriving Repr

/-- `SchemaProblemAnalyzer._generate_correction_plan`: buckets by severity,
effort 2h/1h/0.5h per problem. -/
def generateCorrectionPlan (critical major minor : List Problem) : CorrectionPlan :=
  let immediate := critical.map (fun p =>
    { problem_id := p.id, action := p.solution, «example» := p.«example»,
      effort := "High", priority := "Critical" })
  let shortTerm := major.map (fun p =>
    { problem_id := p.id, action := p.solution, «example» := p.«example»,
      effort := "Medium", priority := "High" })
  let longTerm := minor.map (fun p =>
    { problem_id := p.id, action := p.solution, «example» := p.«example»,
      effort := "Low", priority := "Medium" })
  { immediate_actions := immediate
    short_term_actions := shortTerm
    long_term_actions := longTerm
    estimated_effort :=
      { immediate := (immediate.length : ℚ) * 2
        short_term := (shortTerm.length : ℚ) * 1
        long_term := (longTerm.length : ℚ) * 0.5
        total := (immediate.length : ℚ) * 2 + (shortTerm.length : ℚ) * 1
          + (longTerm.length : ℚ) * 0.5 }
    resources_needed :=
      ["Database Administrator", "Data Analyst", "Business Analyst",
       "Security Specialist"] }

/-- Stable insertion into a priority-sorted list (earlier elements stay
before later elements of equal priority, as in Python's stable sort). -/
def insertByPriority (a : PriorityAction) : List PriorityAction → List PriorityAction
  | [] => [a]
  | b :: bs =>
    if b.priority < a.priority then b :: insertByPriority a bs else a :: b :: bs

/-- `all_actions.sort(key=lambda x: x["priority"])` (stable). -/
def sortByPriority (l : List PriorityAction) : List PriorityAction :=
  l.foldr insertByPriority []

/-- `SchemaProblemAnalyzer._prioritize_actions`. -/
def prioritizeActions (critical major minor : List Problem) : List PriorityAction :=
  sortByPriority
    (critical.map (fun p =>
      { problem_id := p.id, name := p.name, priority := 1, impact := "Critical",
        effort := "High", action := p.solution })
    ++ major.map (fun p =>
      { problem_id := p.id, name := p.name, priority := 2, impact := "Major",
        effort := "Medium", action := p.solution })
    ++ minor.map (fun p =>
      { problem_id := p.id, name := p.name, priority := 3, impact := "Minor",
        effort := "Low", action := p.solution }))

/-- The dict returned by `analyze_schema_problems`. -/
structure ProblemsReport where
  critical_problems : List Problem
  major_problems : List Problem
  minor_problems : List Problem
  correction_plan : CorrectionPlan
  priority_actions : List PriorityAction
deriving Repr

/-- `SchemaProblemAnalyzer.analyze_schema_problems`: the five category
checks append to the three severity buckets in call order (governance,
quality, security, architecture, business rules). -/
def analyzeSchemaProblems (schemaInfo : Analysis) : ProblemsReport :=
  let columns := schemaInfo.columns
  let critical := governanceCriticalProblems columns ++ securityCriticalProblems columns
  let major := governanceMajorProblems columns ++ qualityMajorProblems columns
    ++ securityMajorProblems columns ++ businessRulesMajorProblems schemaInfo
  let minor := qualityMinorProblems columns ++ architectureMinorProblems columns
  { critical_problems := critical
    major_problems := major
    minor_problems := minor
    correction_plan := generateCorrectionPlan critical major minor
    priority_actions := prioritizeActions critical major minor }

/-! ## Claim C8 — the ProblemDetector -/

/-- C8 amended: a schema with zero primary-key-flagged columns and no
sensitive-named column yields exactly one critical problem, DG001.  (The
sensitive-name exclusion is needed: DS001 is also critical.) -/
theorem missing_primary_key_problem (s : Analysis)
    (hpk : ∀ c ∈ s.columns, c.primary_key = false)
    (hsens : ∀ c ∈ s.columns,
      sensitiveKeywords.any (fun kw => strContains (strLower c.name) kw) = false) :
    ((analyzeSchemaProblems s).critical_problems.map (fun p => p.id)) = ["DG001"] := by
  have h1 : s.columns.any (fun c => c.primary_key) = false := by
    rw [List.any_eq_false]
    intro c hc
    simp [hpk c hc]
  have h2 : s.columns.filter
      (fun c => sensitiveKeywords.any (fun kw => strContains (strLower c.name) kw)) = [] := by
    rw [List.filter_eq_nil_iff]
    intro c hc
    simp [hsens c hc]
  simp [analyzeSchemaProblems, governanceCriticalProblems, securityCriticalProblems, h1, h2]

/-- Counterexample for C8 as stated: a schema with no primary key but a
column named `password` emits two critical problems (DG001 and DS001), not
exactly one. -/
theorem missing_primary_key_problem_counterexample :
    ((analyzeSchemaProblems { columns := [{ name := "password" }] }).critical_problems.map
        (fun p => p.id)) = ["DG001", "DS001"]
    ∧ (analyzeSchemaProblems
        { columns := [{ name := "password" }] }).critical_problems.length = 2 := by
  exact ⟨rfl, rfl⟩

/-- Witness for C8: a one-column schema (`customer_name`, no primary key,
no sensitive name) emits exactly the critical problem DG001. -/
theorem missing_primary_key_problem_witness :
    ((analyzeSchemaProblems { columns := [{ name := "customer_name" }] }).critical_problems.map
        (fun p => p.id)) = ["DG001"] :=
  missing_primary_key_problem { columns := [{ name := "customer_name" }] }
    (by decide) (by decide)

/-! ## `schema_problem_analyzer.py` — `SchemaNDMOComplianceProcessor` -/

/-- The primary-key column inserted by `_ensure_primary_key` (the Python
dict carries no `foreign_key` key; readers default it to false). -/
def transformerIdColumn : Column :=
  { name := "id", data_type := "numeric", primary_key := true, unique := true,
    nullable := false,
    constraints := [("required", .b true), ("min_value", .num 1),
      ("max_value", .num 999999999), ("auto_increment", .b true)],
    sample_values := [PyVal.num 1, PyVal.num 2, PyVal.num 3, PyVal.num 4, PyVal.num 5],
    statistics := ⟨0, 0, 0, 0, 0⟩, quality_issues := [],
    ndmo_standard := "DG001", description := "Primary key for unique identification" }

/-- `SchemaNDMOComplianceProcessor._ensure_primary_key`: the `id` column is
inserted first when no column is flagged `primary_key` (the check is the
flag, not the name). -/
def ensurePrimaryKey (columns : List Column) : List Column :=
  if ¬ columns.any (fun c => c.primary_key) then transformerIdColumn :: columns
  else columns

/-- The four audit-trail columns of `_add_audit_trail_fields` (after the
`field.update(...)` filling the bookkeeping keys). -/
def auditTrailFields : List Column :=
  [ { name := "created_date", data_type := "datetime", nullable := false,
      constraints := [("required", .b true), ("format", .s "YYYY-MM-DD HH:MM:SS")],
      ndmo_standard := "DS004", description := "Record creation timestamp",
      unique := false, primary_key := false, foreign_key := false,
      sample_values := [], statistics := ⟨0, 0, 0, 0, 0⟩, quality_issues := [] },
    { name := "modified_date", data_type := "datetime", nullable := true,
      constraints := [("required", .b false), ("format", .s "YYYY-MM-DD HH:MM:SS")],
      ndmo_standard := "DS004", description := "Record modification timestamp",
      unique := false, primary_key := false, foreign_key := false,
      sample_values := [], statistics := ⟨0, 0, 0, 0, 0⟩, quality_issues := [] },
    { name := "created_by", data_type := "text", nullable := false,
      constraints := [("required", .b true), ("max_length", .num 100)],
      ndmo_standard := "DS004", description := "User who created the record",
      unique := false, primary_key := false, foreign_key := false,
      sample_values := [], statistics := ⟨0, 0, 0, 0, 0⟩, quality_issues := [] },
    { name := "modified_by", data_type := "text", nullable := true,
      constraints := [("required", .b false), ("max_length", .num 100)],
      ndmo_standard := "DS004", description := "User who last modified the record",
      unique := false, primary_key := false, foreign_key := false,
      sample_values := [], statistics := ⟨0, 0, 0, 0, 0⟩, quality_issues := [] } ]

/-- The two security columns of `_add_security_fields`. -/
def securityFields : List Column :=
  [ { name := "data_classification", data_type := "categorical", nullable := false,
      constraints := [("required", .b true),
        ("allowed_values", .vals [PyVal.s "Public", PyVal.s "Internal",
          PyVal.s "Confidential", PyVal.s "Restricted"])],
      ndmo_standard := "DS001", description := "Data classification level",
      unique := false, primary_key := false, foreign_key := false,
      sample_values := [], statistics := ⟨0, 0, 0, 0, 0⟩, quality_issues := [] },
    { name := "access_level", data_type := "categorical", nullable := false,
      constraints := [("required", .b true),
        ("allowed_values", .vals [PyVal.s "Read", PyVal.s "Write", PyVal.s "Admin"])],
      ndmo_standard := "DS002", description := "Required access level",
      unique := false, primary_key := false, foreign_key := false,
      sample_values := [], statistics := ⟨0, 0, 0, 0, 0⟩, quality_issues := [] } ]

/-- The two lineage columns of `_add_data_lineage_fields`. -/
def lineageFields : List Column :=
  [ { name := "source_system", data_type := "text", nullable := false,
      constraints := [("required", .b true), ("max_length", .num 100)],
      ndmo_standard := "DG002", description := "Source system identifier",
      unique := false, primary_key := false, foreign_key := false,
      sample_values := [], statistics := ⟨0, 0, 0, 0, 0⟩, quality_issues := [] },
    { name := "extraction_date", data_type := "datetime", nullable := false,
      constraints := [("required", .b true), ("format", .s "YYYY-MM-DD HH:MM:SS")],
      ndmo_standard := "DG002", description := "Data extraction timestamp",
      unique := false, primary_key := false, foreign_key := false,
      sample_values := [], statistics := ⟨0, 0, 0, 0, 0⟩, quality_issues := [] } ]

/-- The two ownership columns of `_add_data_ownership_fields`. -/
def ownershipFields : List Column :=
  [ { name := "data_owner", data_type := "text", nullable := false,
      constraints := [("required", .b true), ("max_length", .num 100)],
      ndmo_standard := "DG003", description := "Data owner department or person",
      unique := false, primary_key := false, foreign_key := false,
      sample_values := [], statistics := ⟨0, 0, 0, 0, 0⟩, quality_issues := [] },
    { name := "data_steward", data_type := "text", nullable := true,
      constraints := [("required", .b false), ("max_length", .num 100)],
      ndmo_standard := "DG003", description := "Data steward responsible for quality",
      unique := false, primary_key := false, foreign_key := false,
      sample_values := [], statistics := ⟨0, 0, 0, 0, 0⟩, quality_issues := [] } ]

/-- The lowercased existing names checked by each `_add_*_fields` helper. -/
def lowerNames (columns : List Column) : List String :=
  columns.map (fun c => strLower c.name)

/-- The append-if-name-absent loop shared by `_add_audit_trail_fields`,
`_add_security_fields`, `_add_data_lineage_fields` and
`_add_data_ownership_fields`: `existing_names` is computed once per helper
and the candidate names within one helper are distinct, so the loop is a
filter-append. -/
def appendAbsentFields (columns fields : List Column) : List Column :=
  columns ++ fields.filter (fun f => decide (f.name ∉ lowerNames columns))

/-- `SchemaNDMOComplianceProcessor._improve_data_types_for_ndmo` on one
column: name-based type overrides, never touching the name. -/
def improveDataTypesForNdmo (column : Column) : Column :=
  let n := strLower column.name
  if strContains n "date" || strContains n "time" then
    { column with
      data_type := "datetime",
      constraints := dictSet column.constraints "format" (.s "YYYY-MM-DD HH:MM:SS") }
  else if strContains n "email" then
    { column with
      data_type := "email",
      constraints := dictSet column.constraints "pattern"
        (.s "^[a-zA-Z0-9._%+-]+@[a-zA-Z0-9.-]+\\.[a-zA-Z]\x7b2,\x7d$") }
  else if strContains n "phone" || strContains n "mobile" then
    { column with
      data_type := "phone",
      constraints := dictSet column.constraints "pattern" (.s "^\\+?[1-9]\\d\x7b1,14\x7d$") }
  else if strContains n "amount" || strContains n "price" || strContains n "charge" then
    { column with
      data_type := "numeric",
      constraints := dictSet (dictSet column.constraints "min_value" (.num 0))
        "decimal_places" (.num 2) }
  else column

/-- `SchemaNDMOComplianceProcessor._add_data_quality_constraints` on one
column (`if not constraints.get("max_length")` is the Python falsiness
test). -/
def addDataQualityConstraints (column : Column) : Column :=
  let n := strLower column.name
  let c1 :=
    if strContains n "id" || strContains n "key" then
      { column with
        constraints := dictSet column.constraints "required" (.b true),
        nullable := false }
    else column
  let c2 :=
    if c1.data_type = "text" ∧ ¬ dictTruthy (dictGet c1.constraints "max_length") then
      { c1 with constraints := dictSet c1.constraints "max_length" (.num 255) }
    else c1
  if strContains n "code" then
    { c2 with
      constraints :=
        dictSet (dictSet c2.constraints "pattern" (.s "^[A-Z0-9_]+$"))
          "case_sensitive" (.b true) }
  else c2

/-- The canonical rule set of `_add_comprehensive_business_rules`
(replaces `business_rules` wholesale; these dicts carry no `implemented`
key). -/
def comprehensiveBusinessRules : List BusinessRule :=
  [ { rule_id := "BR001", rule_name := "Primary Key Constraint",
      description := "Every record must have a unique primary key",
      severity := "critical", ndmo_standard := "DG001" },
    { rule_id := "BR002", rule_name := "Audit Trail Requirement",
      description := "All records must have creation and modification tracking",
      severity := "high", ndmo_standard := "DS004" },
    { rule_id := "BR003", rule_name := "Data Classification",
      description := "All data must be classified according to security levels",
      severity := "high", ndmo_standard := "DS001" },
    { rule_id := "BR004", rule_name := "Data Completeness",
      description := "Critical fields must not be null",
      severity := "medium", ndmo_standard := "DQ001" },
    { rule_id := "BR005", rule_name := "Data Validity",
      description := "Data must conform to defined formats and patterns",
      severity := "medium", ndmo_standard := "DQ005" } ]

/-- The fixed, unconditional 6-entry list of
`_get_compliance_improvements`. -/
def complianceImprovements : List Improvement :=
  [ { improvement := "Added Primary Key", ndmo_standard := "DG001",
      description := "Ensures unique identification of records" },
    { improvement := "Added Audit Trail Fields", ndmo_standard := "DS004",
      description := "Tracks record creation and modification" },
    { improvement := "Improved Data Types", ndmo_standard := "DQ005",
      description := "Enhanced data validity and format compliance" },
    { improvement := "Added Security Classification", ndmo_standard := "DS001",
      description := "Implements data security classification" },
    { improvement := "Added Data Lineage Tracking", ndmo_standard := "DG002",
      description := "Tracks data source and extraction" },
    { improvement := "Added Data Ownership", ndmo_standard := "DG003",
      description := "Defines data ownership and stewardship" } ]

/-- `SchemaNDMOComplianceProcessor.make_schema_ndmo_compliant`: the eight
steps in source order (primary key, audit fields, type improvement,
quality constraints, security fields, business rules, lineage fields,
ownership fields), then the bookkeeping updates. -/
def makeSchemaNdmoCompliant (schemaAnalysis : Analysis) : Analysis :=
  let c1 := ensurePrimaryKey schemaAnalysis.columns
  let c2 := appendAbsentFields c1 auditTrailFields
  let c3 := c2.map improveDataTypesForNdmo
  let c4 := c3.map addDataQualityConstraints
  let c5 := appendAbsentFields c4 securityFields
  let c6 := appendAbsentFields c5 lineageFields
  let c7 := appendAbsentFields c6 ownershipFields
  { schemaAnalysis with
    columns := c7
    business_rules := comprehensiveBusinessRules
    total_columns := c7.length
    ndmo_compliant := true
    compliance_improvements := complianceImprovements }

/-! ## Claim C4 — the ComplianceTransformer -/

theorem improveDataTypesForNdmo_name (c : Column) :
    (improveDataTypesForNdmo c).name = c.name := by
  simp only [improveDataTypesForNdmo]
  split_ifs <;> rfl

theorem addDataQualityConstraints_name (c : Column) :
    (addDataQualityConstraints c).name = c.name := by
  simp only [addDataQualityConstraints]
  split_ifs <;> rfl

theorem names_map_of_name_preserving (f : Column → Column)
    (hf : ∀ c, (f c).name = c.name) :
    ∀ l : List Column, (l.map f).map (fun c => c.name) = l.map (fun c => c.name) := by
  intro l
  induction l with
  | nil => rfl
  | cons a t ih => simp [hf a, ih]

theorem names_appendAbsentFields (columns fields : List Column) :
    (appendAbsentFields columns fields).map (fun c => c.name)
      = columns.map (fun c => c.name)
        ++ (fields.filter (fun f => decide (f.name ∉ lowerNames columns))).map
            (fun c => c.name) := by
  simp [appendAbsentFields]

theorem nodup_appendAbsentFields (columns fields : List Column)
    (h1 : (columns.map (fun c => c.name)).Nodup)
    (h2 : (fields.map (fun c => c.name)).Nodup)
    (h3 : ∀ f ∈ fields, strLower f.name = f.name) :
    ((appendAbsentFields columns fields).map (fun c => c.name)).Nodup := by
  rw [names_appendAbsentFields, List.nodup_append]
  refine ⟨h1, h2.sublist (List.Sublist.map _ (List.filter_sublist _)), ?_⟩
  intro x hx hx2
  obtain ⟨f, hf, rfl⟩ := List.mem_map.1 hx2
  have hfil := List.mem_filter.1 hf
  have hnotin : f.name ∉ lowerNames columns := of_decide_eq_true hfil.2
  apply hnotin
  obtain ⟨c, hc, hcn⟩ := List.mem_map.1 hx
  have hmem : strLower c.name ∈ lowerNames columns :=
    List.mem_map_of_mem (fun c => strLower c.name) hc
  rw [hcn, h3 f hfil.1] at hmem
  exact hmem

theorem names_ensurePrimaryKey (columns : List Column) :
    (ensurePrimaryKey columns).map (fun c => c.name)
      = (if columns.any (fun c => c.primary_key) then [] else ["id"])
        ++ columns.map (fun c => c.name) := by
  unfold ensurePrimaryKey
  by_cases h : columns.any (fun c => c.primary_key)
  · simp [h]
  · simp [h, transformerIdColumn]

/-- C4 amended: on a schema whose column names are unique, provided some
column is flagged primary key or no column is named exactly `id`, the
transformed schema keeps every original column name in order (the lone
possible insertion is the `id` column at the front, everything else is
appended) and its names are again unique.  The proviso is necessary: the
primary-key guard checks the flag, not the name. -/
theorem compliance_transformer_preserves_columns (s : Analysis)
    (hnd : (s.columns.map (fun c => c.name)).Nodup)
    (hid : s.columns.any (fun c => c.primary_key) = true
      ∨ "id" ∉ s.columns.map (fun c => c.name)) :
    ∃ appended : List String,
      ((makeSchemaNdmoCompliant s).columns.map (fun c => c.name))
        = (if s.columns.any (fun c => c.primary_key) then [] else ["id"])
          ++ s.columns.map (fun c => c.name) ++ appended
      ∧ ((makeSchemaNdmoCompliant s).columns.map (fun c => c.name)).Nodup := by
  have hcols : (makeSchemaNdmoCompliant s).columns
      = appendAbsentFields (appendAbsentFields (appendAbsentFields
          (((appendAbsentFields (ensurePrimaryKey s.columns) auditTrailFields).map
              improveDataTypesForNdmo).map addDataQualityConstraints)
          securityFields) lineageFields) ownershipFields := rfl
  have hmapnames :
      ((((appendAbsentFields (ensurePrimaryKey s.columns) auditTrailFields).map
          improveDataTypesForNdmo).map addDataQualityConstraints).map (fun c => c.name))
        = (appendAbsentFields (ensurePrimaryKey s.columns) auditTrailFields).map
            (fun c => c.name) := by
    rw [names_map_of_name_preserving addDataQualityConstraints
        addDataQualityConstraints_name,
      names_map_of_name_preserving improveDataTypesForNdmo improveDataTypesForNdmo_name]
  have hnodup1 : ((ensurePrimaryKey s.columns).map (fun c => c.name)).Nodup := by
    rw [names_ensurePrimaryKey]
    by_cases h : s.columns.any (fun c => c.primary_key)
    · simpa [h] using hnd
    · have hidn : "id" ∉ s.columns.map (fun c => c.name) := by
        rcases hid with hl | hr
        · exact absurd hl h
        · exact hr
      simp [h, hidn, hnd]
  have hnodup2 := nodup_appendAbsentFields (ensurePrimaryKey s.columns) auditTrailFields
    hnodup1 (by decide) (by decide)
  have hnodup2' :
      ((((appendAbsentFields (ensurePrimaryKey s.columns) auditTrailFields).map
          improveDataTypesForNdmo).map addDataQualityConstraints).map
        (fun c => c.name)).Nodup := by
    rw [hmapnames]
    exact hnodup2
  have hnodup3 := nodup_appendAbsentFields _ securityFields hnodup2' (by decide) (by decide)
  have hnodup4 := nodup_appendAbsentFields _ lineageFields hnodup3 (by decide) (by decide)
  have hnodup5 := nodup_appendAbsentFields _ ownershipFields hnodup4 (by decide) (by decide)
  have heq := congrArg (List.map (fun c : Column => c.name)) hcols
  rw [names_appendAbsentFields, names_appendAbsentFields, names_appendAbsentFields,
    hmapnames, names_appendAbsentFields, names_ensurePrimaryKey,
    List.append_assoc, List.append_assoc, List.append_assoc] at heq
  refine ⟨_, heq, ?_⟩
  rw [hcols]
  exact hnodup5

/-- Counterexample for C4 as stated: a schema whose single column is named
`id` but not flagged `primary_key` has unique names, yet the transformer
inserts a second `id` column, so the result's names are not unique. -/
theorem compliance_transformer_preserves_columns_counterexample :
    (([{ name := "id" }] : List Column).map (fun c => c.name)).Nodup
    ∧ ¬ ((makeSchemaNdmoCompliant { columns := [{ name := "id" }] }).columns.map
          (fun c => c.name)).Nodup :=
  ⟨by decide, by decide⟩

/-- Witness for C4 — Scenario E: on a schema already containing a
primary-key column named `id`, no second `id` is inserted (the name count
stays 1) and names stay unique. -/
theorem compliance_transformer_preserves_columns_witness :
    (∃ appended : List String,
      ((makeSchemaNdmoCompliant
          { columns := [{ name := "id", data_type := "numeric", primary_key := true, unique := true }] }).columns.map
            (fun c => c.name))
        = (if ([{ name := "id", data_type := "numeric", primary_key := true, unique := true }] :
              List Column).any (fun c => c.primary_key) then []
           else ["id"])
          ++ ([{ name := "id", data_type := "numeric", primary_key := true, unique := true }] :
              List Column).map (fun c => c.name) ++ appended
      ∧ ((makeSchemaNdmoCompliant
          { columns := [{ name := "id", data_type := "numeric", primary_key := true, unique := true }] }).columns.map
            (fun c => c.name)).Nodup)
    ∧ ((makeSchemaNdmoCompliant
        { columns := [{ name := "id", data_type := "numeric", primary_key := true, unique := true }] }).columns.map
          (fun c => c.name)).count "id" = 1 := by
  constructor
  · exact compliance_transformer_preserves_columns _ (by decide) (Or.inl (by decide))
  · decide

/-! ## `smart_data_processor.py` — `SmartDataProcessor` -/

/-- Python `bool(value)` on a cell.  A missing value is a float NaN in
pandas, and `bool(nan)` is `True`. -/
def cellTruthy : PyVal → Bool
  | .none => true
  | .b bv => bv
  | .num q => decide (q ≠ 0)
  | .s str => !str.isEmpty
  | .dt _ => true

/-- `pd.to_numeric(column, errors='coerce')` on one cell: the parsed
number, or missing when unparsable. -/
def toNumericCell (c : PyVal) : PyVal :=
  ((pyToNumeric c).map PyVal.num).getD PyVal.none

/-- `pd.to_datetime(column, errors='coerce')` on one cell: the parsed
timestamp, or missing (NaT) when unparsable. -/
def toDatetimeCell (c : PyVal) : PyVal :=
  ((pyToDatetime c).map PyVal.dt).getD PyVal.none

/-- `column.astype('bool')` on one cell: plain Python truthiness — an
unparsable string does not become missing, it becomes `True`/`False`, and a
missing value becomes `True`. -/
def toBooleanCell (c : PyVal) : PyVal :=
  PyVal.b (cellTruthy c)

/-- `column.astype(str)` on one cell: missing becomes the literal string
`"nan"`. -/
def toTextCell (c : PyVal) : PyVal :=
  PyVal.s (pyStr c)

/-- `SmartDataProcessor._convert_to_target_type`.  Every branch of the
model is total, mirroring the `try/except` that returns the column
unchanged on error (no branch can raise element-wise). -/
def convertToTargetType (targetType : String) (cells : List PyVal) : List PyVal :=
  if targetType = "numeric" then cells.map toNumericCell
  else if targetType = "datetime" then cells.map toDatetimeCell
  else if targetType = "boolean" then cells.map toBooleanCell
  else if targetType = "text" then cells.map toTextCell
  else cells

/-- `column.duplicated(keep=False)` marks every position whose value
occurs more than once; the suffix pass rewrites each marked position to
`f"{original_value}_{unique_counter}"` with one global counter. -/
def suffixDuplicates (dupP : PyVal → Bool) : List PyVal → ℕ → List PyVal
  | [], _ => []
  | v :: rest, k =>
    if dupP v then
      PyVal.s (pyStr v ++ "_" ++ toString k) :: suffixDuplicates dupP rest (k + 1)
    else v :: suffixDuplicates dupP rest k

/-- `SmartDataProcessor._ensure_primary_key_uniqueness`: one suffix pass
over the duplicated positions (no re-check against existing values). -/
def ensurePrimaryKeyUniqueness (cells : List PyVal) : List PyVal :=
  if cells.any (fun v => decide (1 < cells.count v)) then
    suffixDuplicates (fun v => decide (1 < cells.count v)) cells 1
  else cells

/-! ## Claims C5, C6 — the DataQualityProcessor -/

/-- C5 (code bug): the single suffix pass of
`_ensure_primary_key_uniqueness` can collide with an existing value — on
`["a", "a", "a_1"]` it produces `["a_1", "a_2", "a_1"]`, which still
contains a duplicate, so `distinct_count == row_count` fails even though
the function's stated purpose is to ensure uniqueness. -/
theorem primary_key_suffixing_collision :
    ensurePrimaryKeyUniqueness [PyVal.s "a", PyVal.s "a", PyVal.s "a_1"]
      = [PyVal.s "a_1", PyVal.s "a_2", PyVal.s "a_1"]
    ∧ (ensurePrimaryKeyUniqueness [PyVal.s "a", PyVal.s "a", PyVal.s "a_1"]).dedup.length
        ≠ (ensurePrimaryKeyUniqueness [PyVal.s "a", PyVal.s "a", PyVal.s "a_1"]).length := by
  decide

/-- C6 amended: type coercion never shortens or aborts (each target maps
the column element-wise); numeric and datetime targets turn each
unparsable value into a missing value; the boolean target truthy-casts
every value (an unparsable string becomes `True`, never missing); the text
target stringifies every value (missing becomes `"nan"`). -/
theorem type_coercion_characterization (targetType : String) (cells : List PyVal)
    (i : ℕ) (c : PyVal) (hc : cells[i]? = some c) :
    (convertToTargetType targetType cells).length = cells.length
    ∧ (pyToNumeric c = Option.none →
        (convertToTargetType "numeric" cells)[i]? = some PyVal.none)
    ∧ (pyToDatetime c = Option.none →
        (convertToTargetType "datetime" cells)[i]? = some PyVal.none)
    ∧ (convertToTargetType "boolean" cells)[i]? = some (PyVal.b (cellTruthy c))
    ∧ (convertToTargetType "text" cells)[i]? = some (PyVal.s (pyStr c)) := by
  have hnum : convertToTargetType "numeric" cells = cells.map toNumericCell := by
    unfold convertToTargetType
    rw [if_pos rfl]
  have hdt : convertToTargetType "datetime" cells = cells.map toDatetimeCell := by
    unfold convertToTargetType
    rw [if_neg (by decide), if_pos rfl]
  have hbool : convertToTargetType "boolean" cells = cells.map toBooleanCell := by
    unfold convertToTargetType
    rw [if_neg (by decide), if_neg (by decide), if_pos rfl]
  have htext : convertToTargetType "text" cells = cells.map toTextCell := by
    unfold convertToTargetType
    rw [if_neg (by decide), if_neg (by decide), if_neg (by decide), if_pos rfl]
  refine ⟨?_, ?_, ?_, ?_, ?_⟩
  · unfold convertToTargetType
    split_ifs <;> simp
  · intro h
    rw [hnum]
    simp [hc, toNumericCell, h]
  · intro h
    rw [hdt]
    simp [hc, toDatetimeCell, h]
  · rw [hbool]
    simp [hc, toBooleanCell]
  · rw [htext]
    simp [hc, toTextCell]

/-- Counterexample for C6 as stated: coercing the unparsable string
`"maybe"` to boolean yields `True`, not a missing value. -/
theorem type_coercion_counterexample :
    convertToTargetType "boolean" [PyVal.s "maybe"] = [PyVal.b true]
    ∧ convertToTargetType "boolean" [PyVal.s "maybe"] ≠ [PyVal.none] := by
  decide

/-- Witness for C6. -/
theorem type_coercion_characterization_witness :
    (convertToTargetType "boolean" [PyVal.s "maybe"])[0]? = some (PyVal.b true)
    ∧ (convertToTargetType "numeric" [PyVal.s "maybe"])[0]? = some PyVal.none := by
  have h := type_coercion_characterization "boolean" [PyVal.s "maybe"] 0 (PyVal.s "maybe") rfl
  exact ⟨h.2.2.2.1, h.2.1 rfl⟩

end DQ
